import Mathlib

/-!
Shallow embedding of the flow2api core (token pool, concurrency gate,
load balancer, generation orchestrator) and proofs of the specified
properties.  Pure time is modelled as integer seconds; external calls
(remote API, captcha, cache) are modelled by an environment oracle whose
fallible calls return `Except String` values, an exception being the
error message string.  Components of the repository that are not part of
the provided sources (the persistent store, the concurrency manager and
the load balancer) are modelled from the spec and marked as such.
-/

set_option maxHeartbeats 1000000

namespace Flow2API

/-- Per-account statistics row.  Modelled from the spec: the
PersistentStore keeps, per account, lifetime/daily/consecutive error
counters and cumulative image/video usage counters. -/
structure TokenStats where
  error_count : Nat
  today_error_count : Nat
  consecutive_error_count : Nat
  image_count : Nat
  video_count : Nat
  deriving Repr, DecidableEq

/-- One upstream account record (`Token` in `src/core/models.py`,
fields as used by `token_manager.py` and `generation_handler.py`).
`at_expires` and `banned_at` are absolute instants in seconds;
a concurrency limit `< 0` is the "unlimited" sentinel. -/
structure Token where
  id : Nat
  st : String
  at_val : Option String
  at_expires : Option Int
  is_active : Bool
  ban_reason : Option String
  banned_at : Option Int
  credits : Int
  user_paygate_tier : Option String
  current_project_id : Option String
  image_enabled : Bool
  video_enabled : Bool
  image_concurrency : Int
  video_concurrency : Int
  deriving Repr, DecidableEq

/-- One persisted asynchronous video generation (`Task` record). -/
structure VTask where
  task_id : String
  token_id : Nat
  model : String
  prompt : String
  status : String
  scene_id : Option String
  progress : Nat
  result_urls : List String
  completed_at : Option Int
  deriving Repr, DecidableEq

/-- One request-log row (`RequestLog`): owning token, operation name and
HTTP-ish status code (200 success / 500 failure). -/
structure LogEntry where
  token_id : Option Nat
  operation : String
  status_code : Nat
  deriving Repr, DecidableEq

/-- Modelled from the spec: the PersistentStore, a typed CRUD store over
Token/Task/RequestLog rows plus per-account statistics and the admin
config exposing the error-ban threshold. -/
structure DB where
  tokens : List Token
  stats : Nat → TokenStats
  threshold : Nat
  tasks : List VTask
  logs : List LogEntry

/-- `db.get_token`: look a token up by id. -/
def db_get_token (db : DB) (tid : Nat) : Option Token :=
  db.tokens.find? (fun t => t.id == tid)

/-- `db.update_token`: rewrite the row with the given id in place. -/
def db_update (db : DB) (tid : Nat) (f : Token → Token) : DB :=
  { db with tokens := db.tokens.map (fun t => if t.id == tid then f t else t) }

/-- `TokenManager.disable_token`: set `is_active` to false. -/
def disable_token (db : DB) (tid : Nat) : DB :=
  db_update db tid (fun t => { t with is_active := false })

/-- Modelled from the spec: the store's atomic error increment
("error increments both the lifetime and consecutive error counters";
the daily counter is bumped alongside the lifetime one). -/
def db_increment_error (db : DB) (tid : Nat) : DB :=
  { db with stats := fun n =>
      if n = tid then
        { db.stats n with
            error_count := (db.stats n).error_count + 1,
            today_error_count := (db.stats n).today_error_count + 1,
            consecutive_error_count := (db.stats n).consecutive_error_count + 1 }
      else db.stats n }

/-- Modelled from the spec: `db.reset_error_count` resets the counter
used for the auto-disable threshold check ("success resets the
consecutive counter to zero, lifetime/day counters untouched"). -/
def db_reset_error_count (db : DB) (tid : Nat) : DB :=
  { db with stats := fun n =>
      if n = tid then { db.stats n with consecutive_error_count := 0 }
      else db.stats n }

/-- Modelled from the spec: the store's usage increment, bumping the
per-capability usage counter. -/
def db_increment_usage (db : DB) (tid : Nat) (is_video : Bool) : DB :=
  { db with stats := fun n =>
      if n = tid then
        if is_video then { db.stats n with video_count := (db.stats n).video_count + 1 }
        else { db.stats n with image_count := (db.stats n).image_count + 1 }
      else db.stats n }

/-- Events recording the externally visible calls made by a run. -/
inductive SubmitKind
  | text
  | startImage (startId : String)
  | startEnd (startId endId : String)
  | refImages (ids : List String)
  deriving Repr, DecidableEq

inductive Event
  | stToAt (st : String)
  | getCredits (a : String)
  | createProject (st : String)
  | selectToken (for_image for_video : Bool)
  | uploadImage (img : Nat)
  | generateImage (ids : List String)
  | submitVideo (k : SubmitKind)
  | checkStatus (attempt : Nat)
  | sleep (interval : Nat)
  | cacheDownload (url : String)
  | acquireImg (tid : Nat) (ok : Bool)
  | releaseImg (tid : Nat)
  | acquireVid (tid : Nat) (ok : Bool)
  | releaseVid (tid : Nat)
  deriving Repr, DecidableEq

/-- Remote status of one operation as returned by a poll. -/
structure OpSt where
  name : String
  status : Option String
  videoUrl : Option String
  deriving Repr, DecidableEq

/-- One operation handle returned by a video submission. -/
structure OpInfo where
  name : String
  sceneId : Option String
  deriving Repr, DecidableEq

/-- The environment oracle: current time, configuration, and the
outcome of every external call the run may make (an `Except.error e`
models the call raising an exception with message `e`). -/
structure Env where
  now : Int
  base_url : String
  cache_enabled : Bool
  max_poll_attempts : Nat
  poll_interval : Nat
  stToAt : String → Except String (String × Option Int)
  getCredits : String → Except String Int
  createProject : String → Except String String
  uploadImage : Nat → Except String String
  generateImage : List String → Except String (List String)
  submitVideo : SubmitKind → Except String (List OpInfo)
  checkStatus : Nat → Except String (List OpSt)
  cacheDownload : String → Except String String

/-- Python truthiness of `token.at`: absent or the empty string. -/
def at_missing (t : Token) : Bool :=
  match t.at_val with
  | none => true
  | some s => s.isEmpty

/-- `TokenManager._refresh_at`: exchange the session credential for a
new access credential via the remote adapter, persist it with its
expiry, then best-effort refresh the balance; on exchange failure the
token is disabled and `false` returned.  The returned event list
records the remote calls made. -/
def refresh_at (env : Env) (db : DB) (tid : Nat) : Bool × DB × List Event :=
  match db_get_token db tid with
  | none => (false, db, [])
  | some token =>
    match env.stToAt token.st with
    | .error _ => (false, disable_token db tid, [.stToAt token.st])
    | .ok (new_at, new_exp) =>
      let db1 := db_update db tid (fun t => { t with at_val := some new_at, at_expires := new_exp })
      match env.getCredits new_at with
      | .error _ => (true, db1, [.stToAt token.st, .getCredits new_at])
      | .ok c =>
        (true, db_update db1 tid (fun t => { t with credits := c }),
          [.stToAt token.st, .getCredits new_at])

/-- `TokenManager.is_at_valid`: pass through when the access credential
exists and is not about to expire (refresh 1 hour = 3600 s in advance),
otherwise refresh. -/
def is_at_valid (env : Env) (db : DB) (tid : Nat) : Bool × DB × List Event :=
  match db_get_token db tid with
  | none => (false, db, [])
  | some token =>
    if at_missing token then refresh_at env db tid
    else
      match token.at_expires with
      | none => refresh_at env db tid
      | some exp =>
        if exp - env.now < 3600 then refresh_at env db tid
        else (true, db, [])

/-- `TokenManager.record_error`: bump the error counters, then disable
the token if the consecutive count reached the configured threshold. -/
def record_error (db : DB) (tid : Nat) : DB :=
  let db1 := db_increment_error db tid
  if (db1.stats tid).consecutive_error_count ≥ db1.threshold then disable_token db1 tid
  else db1

/-- `TokenManager.record_success`: reset the consecutive error count. -/
def record_success (db : DB) (tid : Nat) : DB :=
  db_reset_error_count db tid

/-- `TokenManager.ban_token_for_429`: immediate deactivation with ban
reason and timestamp, independent of the error-threshold path. -/
def ban_token_for_429 (now : Int) (db : DB) (tid : Nat) : DB :=
  db_update db tid (fun t =>
    { t with is_active := false, ban_reason := some "429_rate_limit", banned_at := some now })

/-- Eligibility test of `TokenManager.auto_unban_429_tokens` for one
snapshot row: banned for 429, inactive, has a ban time, credential not
already expired, and at least 12 hours (43200 s) since the ban. -/
def unban_eligible (now : Int) (t : Token) : Bool :=
  t.ban_reason == some "429_rate_limit" &&
  !t.is_active &&
  t.banned_at.isSome &&
  (match t.at_expires with
   | none => true
   | some e => decide (now < e)) &&
  (match t.banned_at with
   | none => false
   | some b => decide (now - b ≥ 12 * 3600))

/-- The unban update applied to one eligible token: reactivate, clear
ban reason/time, reset the consecutive error counter. -/
def apply_unban (db : DB) (tid : Nat) : DB :=
  db_reset_error_count
    (db_update db tid (fun t =>
      { t with is_active := true, ban_reason := none, banned_at := none })) tid

/-- One step of the unban sweep over the snapshot row `t`. -/
def unban_step (now : Int) (acc : DB) (t : Token) : DB :=
  if unban_eligible now t then apply_unban acc t.id else acc

/-- `TokenManager.auto_unban_429_tokens`: sweep a snapshot of all
tokens, unbanning each eligible one. -/
def auto_unban_429_tokens (now : Int) (db : DB) : DB :=
  db.tokens.foldl (unban_step now) db

/-- `TokenManager.ensure_project_exists`: return the bound project if
present, else create one remotely and persist it (a failure of the
remote call surfaces as an exception; the time-derived project name is
abstracted away). -/
def ensure_project_exists (env : Env) (db : DB) (tid : Nat) :
    Except String String × DB × List Event :=
  match db_get_token db tid with
  | none => (.error "Token not found", db, [])
  | some token =>
    match token.current_project_id with
    | some pid => (.ok pid, db, [])
    | none =>
      match env.createProject token.st with
      | .error e => (.error ("Failed to create project: " ++ e), db, [.createProject token.st])
      | .ok pid =>
        (.ok pid,
         db_update db tid (fun t => { t with current_project_id := some pid }),
         [.createProject token.st])

/-! ### Store lemmas -/

theorem find_map_update (l : List Token) (tid tid2 : Nat) (f : Token → Token)
    (hf : ∀ t, (f t).id = t.id) :
    (l.map (fun t => if t.id == tid then f t else t)).find? (fun t => t.id == tid2) =
      if tid2 = tid then (l.find? (fun t => t.id == tid)).map f
      else l.find? (fun t => t.id == tid2) := by
  induction l with
  | nil => by_cases h : tid2 = tid <;> simp [h]
  | cons t l ih =>
    simp only [List.map_cons]
    by_cases h1 : t.id = tid
    · by_cases h2 : tid2 = tid
      · subst h2
        simp [hf, h1]
      · simp only [beq_iff_eq] at ih
        simp [hf, h1, h2, Ne.symm h2, ih, -List.find?_map]
    · by_cases h2 : t.id = tid2
      · have h3 : ¬ tid2 = tid := by omega
        simp [h1, h2, h3]
      · simp only [beq_iff_eq] at ih
        simp [h1, h2, ih, -List.find?_map]

theorem db_get_token_update (db : DB) (tid tid2 : Nat) (f : Token → Token)
    (hf : ∀ t, (f t).id = t.id) :
    db_get_token (db_update db tid f) tid2 =
      if tid2 = tid then (db_get_token db tid).map f else db_get_token db tid2 := by
  unfold db_get_token db_update
  exact find_map_update db.tokens tid tid2 f hf

theorem db_get_token_update_self (db : DB) (tid : Nat) (f : Token → Token)
    (hf : ∀ t, (f t).id = t.id) :
    db_get_token (db_update db tid f) tid = (db_get_token db tid).map f := by
  rw [db_get_token_update db tid tid f hf]; simp

theorem db_get_token_update_other (db : DB) (tid tid2 : Nat) (f : Token → Token)
    (hf : ∀ t, (f t).id = t.id) (h : tid2 ≠ tid) :
    db_get_token (db_update db tid f) tid2 = db_get_token db tid2 := by
  rw [db_get_token_update db tid tid2 f hf]; simp [h]

/-- With pairwise-distinct ids, the lookup of a member's id returns
that member. -/
theorem db_find_of_mem (l : List Token) (hnd : (l.map Token.id).Nodup)
    (t : Token) (ht : t ∈ l) : l.find? (fun u => u.id == t.id) = some t := by
  induction l with
  | nil => cases ht
  | cons h l ih =>
    rcases List.mem_cons.mp ht with rfl | hmem
    · simp [List.find?_cons]
    · have hne : h.id ≠ t.id := by
        intro he
        have : t.id ∈ l.map Token.id := List.mem_map_of_mem Token.id hmem
        rw [← he] at this
        exact (List.nodup_cons.mp hnd).1 this
      have hnd' : (l.map Token.id).Nodup := (List.nodup_cons.mp hnd).2
      simp [List.find?_cons, hne, ih hnd' hmem]

/-! ### C1: validity check / refresh of the access credential -/

/-- C1 as stated: for an existing account, `is_at_valid` returns true
with no state change (and no remote call) iff the access credential is
present and strictly more than one hour remains before its expiry; in
every other case it performs the refresh path. -/
def c1_as_stated (env : Env) (db : DB) (tid : Nat) : Prop :=
  ∀ tok, db_get_token db tid = some tok →
    ((is_at_valid env db tid = (true, db, [])) ↔
      (at_missing tok = false ∧ ∃ e, tok.at_expires = some e ∧ 3600 < e - env.now))
    ∧ (¬ (at_missing tok = false ∧ ∃ e, tok.at_expires = some e ∧ 3600 < e - env.now) →
        is_at_valid env db tid = refresh_at env db tid)

def tokC1 : Token :=
  { id := 1, st := "s", at_val := some "a", at_expires := some 3600,
    is_active := true, ban_reason := none, banned_at := none, credits := 0,
    user_paygate_tier := none, current_project_id := some "p",
    image_enabled := true, video_enabled := true,
    image_concurrency := -1, video_concurrency := -1 }

def envC1 : Env :=
  { now := 0, base_url := "", cache_enabled := false,
    max_poll_attempts := 1, poll_interval := 1,
    stToAt := fun _ => .ok ("a2", some 99999),
    getCredits := fun _ => .ok 5,
    createProject := fun _ => .ok "p",
    uploadImage := fun _ => .ok "m",
    generateImage := fun _ => .ok [],
    submitVideo := fun _ => .ok [],
    checkStatus := fun _ => .ok [],
    cacheDownload := fun _ => .ok "f" }

def dbC1 : DB :=
  { tokens := [tokC1], stats := fun _ => ⟨0, 0, 0, 0, 0⟩, threshold := 3,
    tasks := [], logs := [] }

/-- C1, counterexample: with exactly one hour (3600 s) remaining the
code passes the credential through as valid with no refresh, while the
claim ("more than one hour") requires a refresh there. -/
theorem c1_counterexample : ¬ c1_as_stated envC1 dbC1 1 := by
  intro h
  obtain ⟨-, e, he, hgt⟩ := (h tokC1 rfl).1.mp rfl
  rw [show tokC1.at_expires = some 3600 from rfl] at he
  cases he
  have hn : envC1.now = 0 := rfl
  rw [hn] at hgt
  omega

/-- Behaviour of the refresh path for an existing token: the exchange
call is made; on exchange failure the token is disabled and `false`
returned; on success the new credential and expiry are persisted,
`true` is returned, and the balance is persisted when the balance
query succeeds. -/
theorem refresh_at_spec (env : Env) (db : DB) (tid : Nat) (tok : Token)
    (h : db_get_token db tid = some tok) :
    Event.stToAt tok.st ∈ (refresh_at env db tid).2.2
    ∧ (∀ msg, env.stToAt tok.st = .error msg →
        refresh_at env db tid = (false, disable_token db tid, [.stToAt tok.st])
        ∧ db_get_token (disable_token db tid) tid = some { tok with is_active := false })
    ∧ (∀ a exp, env.stToAt tok.st = .ok (a, exp) →
        (refresh_at env db tid).1 = true
        ∧ ∃ tok2, db_get_token (refresh_at env db tid).2.1 tid = some tok2
            ∧ tok2.at_val = some a ∧ tok2.at_expires = exp
            ∧ ∀ c, env.getCredits a = .ok c → tok2.credits = c) := by
  have hdis : db_get_token (disable_token db tid) tid
      = some { tok with is_active := false } := by
    unfold disable_token
    rw [db_get_token_update_self db tid (fun t => { t with is_active := false })
          (fun t => rfl), h]
    rfl
  cases hst : env.stToAt tok.st with
  | error msg =>
    refine ⟨?_, ?_, ?_⟩
    · simp only [refresh_at, h, hst]
      simp
    · intro m hm
      cases hm
      refine ⟨?_, hdis⟩
      simp only [refresh_at, h, hst]
    · intro a exp hae
      exact Except.noConfusion hae
  | ok p =>
    obtain ⟨a, exp⟩ := p
    have hupd1 : db_get_token
        (db_update db tid (fun t => { t with at_val := some a, at_expires := exp })) tid
        = some { tok with at_val := some a, at_expires := exp } := by
      rw [db_get_token_update_self db tid
            (fun t => { t with at_val := some a, at_expires := exp }) (fun t => rfl), h]
      rfl
    refine ⟨?_, ?_, ?_⟩
    · simp only [refresh_at, h, hst]
      cases hc : env.getCredits a <;> simp
    · intro m hm
      exact Except.noConfusion hm
    · intro a2 exp2 hae
      rw [Except.ok.injEq, Prod.mk.injEq] at hae
      obtain ⟨rfl, rfl⟩ := hae
      cases hc : env.getCredits a with
      | error m =>
        simp only [refresh_at, h, hst, hc]
        constructor
        · trivial
        · refine ⟨{ tok with at_val := some a, at_expires := exp }, hupd1, rfl, rfl, ?_⟩
          intro c hcc
          exact Except.noConfusion hcc
      | ok c =>
        simp only [refresh_at, h, hst, hc]
        constructor
        · trivial
        · refine ⟨{ tok with at_val := some a, at_expires := exp, credits := c }, ?_, rfl, rfl, ?_⟩
          · rw [db_get_token_update_self _ tid (fun t => { t with credits := c })
                  (fun t => rfl), hupd1]
            rfl
          · intro c2 hcc
            rw [Except.ok.injEq] at hcc
            subst hcc
            rfl

/-- C1 (amended: the strict "more than one hour remains" becomes "at
least one hour (3600 s) remains", and the refreshed balance is
persisted when the balance query itself succeeds; the rest is as
claimed): for every existing account, `is_at_valid` returns true with
no state change and no remote call iff the access credential is
present and at least one hour remains before its expiry; otherwise it
runs the refresh path, which performs the exchange call, persists the
new credential and expiry and (when the balance query succeeds) the
refreshed balance and returns true, and on exchange failure
immediately deactivates the account and returns false. -/
theorem c1_theorem (env : Env) (db : DB) (tid : Nat) (tok : Token)
    (h : db_get_token db tid = some tok) :
    ((is_at_valid env db tid = (true, db, [])) ↔
        (at_missing tok = false ∧ ∃ e, tok.at_expires = some e ∧ 3600 ≤ e - env.now))
    ∧ (¬ (at_missing tok = false ∧ ∃ e, tok.at_expires = some e ∧ 3600 ≤ e - env.now) →
        is_at_valid env db tid = refresh_at env db tid
        ∧ Event.stToAt tok.st ∈ (refresh_at env db tid).2.2
        ∧ (∀ msg, env.stToAt tok.st = .error msg →
            refresh_at env db tid = (false, disable_token db tid, [.stToAt tok.st])
            ∧ db_get_token (disable_token db tid) tid = some { tok with is_active := false })
        ∧ (∀ a exp, env.stToAt tok.st = .ok (a, exp) →
            (refresh_at env db tid).1 = true
            ∧ ∃ tok2, db_get_token (refresh_at env db tid).2.1 tid = some tok2
                ∧ tok2.at_val = some a ∧ tok2.at_expires = exp
                ∧ ∀ c, env.getCredits a = .ok c → tok2.credits = c)) := by
  obtain ⟨hmem, hspec⟩ := refresh_at_spec env db tid tok h
  have hne : (refresh_at env db tid).2.2 ≠ [] := by
    intro hnil
    rw [hnil] at hmem
    cases hmem
  have hrefview : ∀ hcase : is_at_valid env db tid = refresh_at env db tid,
      ¬ is_at_valid env db tid = (true, db, []) := by
    intro hcase hres
    rw [hcase] at hres
    exact hne (congrArg (fun p => p.2.2) hres)
  constructor
  · constructor
    · intro hres
      by_cases hm : at_missing tok
      · exfalso
        refine hrefview ?_ hres
        simp only [is_at_valid, h, hm]
        rfl
      · cases hexp : tok.at_expires with
        | none =>
          exfalso
          refine hrefview ?_ hres
          simp only [is_at_valid, h, hexp]
          simp [hm]
        | some e =>
          by_cases hlt : e - env.now < 3600
          · exfalso
            refine hrefview ?_ hres
            simp only [is_at_valid, h, hexp]
            simp [hm, hlt]
          · exact ⟨by simpa using hm, e, rfl, by omega⟩
    · rintro ⟨hm, e, hexp, hge⟩
      simp only [is_at_valid, h, hexp, hm]
      have hlt : ¬ e - env.now < 3600 := by omega
      simp [hlt]
  · intro hnc
    have hcase : is_at_valid env db tid = refresh_at env db tid := by
      by_cases hm : at_missing tok
      · simp only [is_at_valid, h, hm]
        rfl
      · cases hexp : tok.at_expires with
        | none =>
          simp only [is_at_valid, h, hexp]
          simp [hm]
        | some e =>
          by_cases hlt : e - env.now < 3600
          · simp only [is_at_valid, h, hexp]
            simp [hm, hlt]
          · exfalso
            exact hnc ⟨by simpa using hm, e, hexp, by omega⟩
    exact ⟨hcase, hmem, hspec.1, hspec.2⟩

/-- Witness for `c1_theorem` at a concrete account whose credential has
exactly one hour remaining. -/
theorem c1_theorem_witness : is_at_valid envC1 dbC1 1 = (true, dbC1, []) :=
  (c1_theorem envC1 dbC1 1 tokC1 rfl).1.mpr ⟨rfl, 3600, rfl, by decide⟩

/-! ### C3: error-threshold deactivation and success reset -/

/-- `k` successive `record_error` calls on the same token. -/
def errN (tid : Nat) : Nat → DB → DB
  | 0, db => db
  | k + 1, db => errN tid k (record_error db tid)

theorem record_error_stats_self (db : DB) (tid : Nat) :
    (record_error db tid).stats tid =
      { db.stats tid with
          error_count := (db.stats tid).error_count + 1,
          today_error_count := (db.stats tid).today_error_count + 1,
          consecutive_error_count := (db.stats tid).consecutive_error_count + 1 } := by
  simp only [record_error]
  split <;> simp [db_increment_error, disable_token, db_update]

theorem record_error_stats_other (db : DB) (tid tid2 : Nat) (h : tid2 ≠ tid) :
    (record_error db tid).stats tid2 = db.stats tid2 := by
  simp only [record_error]
  split <;> simp [db_increment_error, disable_token, db_update, h]

theorem record_error_threshold (db : DB) (tid : Nat) :
    (record_error db tid).threshold = db.threshold := by
  simp only [record_error]
  split <;> rfl

theorem record_error_token_other (db : DB) (tid tid2 : Nat) (h : tid2 ≠ tid) :
    db_get_token (record_error db tid) tid2 = db_get_token db tid2 := by
  simp only [record_error]
  split
  · unfold disable_token
    rw [db_get_token_update_other _ tid tid2 (fun t => { t with is_active := false })
          (fun t => rfl) h]
    rfl
  · rfl

theorem record_error_token_self (db : DB) (tid : Nat) (tok : Token)
    (h : db_get_token db tid = some tok) :
    db_get_token (record_error db tid) tid =
      some (if db.threshold ≤ (db.stats tid).consecutive_error_count + 1
            then { tok with is_active := false } else tok) := by
  have h1 : db_get_token (db_increment_error db tid) tid = some tok := h
  simp only [record_error]
  have hs : ((db_increment_error db tid).stats tid).consecutive_error_count
      = (db.stats tid).consecutive_error_count + 1 := by
    unfold db_increment_error
    simp
  have hth : (db_increment_error db tid).threshold = db.threshold := rfl
  split
  case isTrue hcond =>
    rw [hs, hth] at hcond
    rw [if_pos (by omega)]
    unfold disable_token
    rw [db_get_token_update_self _ tid (fun t => { t with is_active := false })
          (fun t => rfl), h1]
    rfl
  case isFalse hcond =>
    rw [hs, hth] at hcond
    rw [if_neg (by omega)]
    exact h1

theorem errN_stats_self (db : DB) (tid : Nat) (k : Nat) :
    (errN tid k db).stats tid =
      { db.stats tid with
          error_count := (db.stats tid).error_count + k,
          today_error_count := (db.stats tid).today_error_count + k,
          consecutive_error_count := (db.stats tid).consecutive_error_count + k } := by
  induction k generalizing db with
  | zero => simp [errN]
  | succ k ih =>
    show (errN tid k (record_error db tid)).stats tid = _
    rw [ih, record_error_stats_self]
    simp
    omega

theorem errN_stats_other (db : DB) (tid tid2 : Nat) (k : Nat) (h : tid2 ≠ tid) :
    (errN tid k db).stats tid2 = db.stats tid2 := by
  induction k generalizing db with
  | zero => rfl
  | succ k ih =>
    show (errN tid k (record_error db tid)).stats tid2 = _
    rw [ih, record_error_stats_other _ _ _ h]

theorem errN_threshold (db : DB) (tid : Nat) (k : Nat) :
    (errN tid k db).threshold = db.threshold := by
  induction k generalizing db with
  | zero => rfl
  | succ k ih =>
    show (errN tid k (record_error db tid)).threshold = _
    rw [ih, record_error_threshold]

theorem errN_token_other (db : DB) (tid tid2 : Nat) (k : Nat) (h : tid2 ≠ tid) :
    db_get_token (errN tid k db) tid2 = db_get_token db tid2 := by
  induction k generalizing db with
  | zero => rfl
  | succ k ih =>
    show db_get_token (errN tid k (record_error db tid)) tid2 = _
    rw [ih, record_error_token_other _ _ _ h]

theorem errN_token_self (db : DB) (tid : Nat) (tok : Token) (k : Nat)
    (h : db_get_token db tid = some tok) :
    db_get_token (errN tid k db) tid =
      some (if k ≠ 0 ∧ db.threshold ≤ (db.stats tid).consecutive_error_count + k
            then { tok with is_active := false } else tok) := by
  induction k generalizing db tok with
  | zero => simpa [errN] using h
  | succ k ih =>
    show db_get_token (errN tid k (record_error db tid)) tid = _
    by_cases hd : db.threshold ≤ (db.stats tid).consecutive_error_count + 1
    · have htok1 : db_get_token (record_error db tid) tid
          = some { tok with is_active := false } := by
        rw [record_error_token_self db tid tok h, if_pos hd]
      rw [ih (record_error db tid) _ htok1,
        if_pos (show (k : Nat) + 1 ≠ 0 ∧ db.threshold ≤
          (db.stats tid).consecutive_error_count + (k + 1) from ⟨by omega, by omega⟩)]
      split <;> rfl
    · have htok1 : db_get_token (record_error db tid) tid = some tok := by
        rw [record_error_token_self db tid tok h, if_neg hd]
      rw [ih (record_error db tid) _ htok1, record_error_threshold, record_error_stats_self]
      dsimp only
      by_cases hk : k = 0
      · subst hk
        rw [if_neg (by simp), if_neg (fun hcon => hd (by omega))]
      · by_cases hge : db.threshold ≤ (db.stats tid).consecutive_error_count + 1 + k
        · rw [if_pos ⟨hk, hge⟩, if_pos ⟨by omega, by omega⟩]
        · rw [if_neg (fun hcon => hge hcon.2), if_neg (fun hcon => hge (by omega))]

theorem record_success_stats_self (db : DB) (tid : Nat) :
    (record_success db tid).stats tid
      = { db.stats tid with consecutive_error_count := 0 } := by
  unfold record_success db_reset_error_count
  simp

theorem record_success_tokens (db : DB) (tid : Nat) :
    (record_success db tid).tokens = db.tokens := rfl

theorem record_success_threshold (db : DB) (tid : Nat) :
    (record_success db tid).threshold = db.threshold := rfl

theorem record_success_token (db : DB) (tid tid2 : Nat) :
    db_get_token (record_success db tid) tid2 = db_get_token db tid2 := rfl

/-- C3 (confirmed): starting from a zero consecutive-error count and an
active account, each `record_error` bumps the lifetime and consecutive
counters; fewer than `T` consecutive errors leave the account row
untouched; the `T`-th consecutive error deactivates exactly this
account (other rows and their statistics are unchanged); and one
intervening `record_success` resets the consecutive counter to 0 while
leaving the lifetime and daily counters and all token rows untouched,
after which `T` fresh consecutive errors are again needed to
deactivate. -/
theorem c3_theorem (db : DB) (tid : Nat) (tok : Token) (T : Nat)
    (htok : db_get_token db tid = some tok)
    (hth : db.threshold = T) (hT : 1 ≤ T)
    (hc : (db.stats tid).consecutive_error_count = 0) :
    (((record_error db tid).stats tid).error_count = (db.stats tid).error_count + 1
      ∧ ((record_error db tid).stats tid).consecutive_error_count = 1)
    ∧ (∀ k, k < T → db_get_token (errN tid k db) tid = some tok)
    ∧ db_get_token (errN tid T db) tid = some { tok with is_active := false }
    ∧ (∀ tid2, tid2 ≠ tid →
        db_get_token (errN tid T db) tid2 = db_get_token db tid2
        ∧ (errN tid T db).stats tid2 = db.stats tid2)
    ∧ (∀ k, k < T →
        ((record_success (errN tid k db) tid).stats tid).consecutive_error_count = 0
        ∧ ((record_success (errN tid k db) tid).stats tid).error_count
            = (db.stats tid).error_count + k
        ∧ ((record_success (errN tid k db) tid).stats tid).today_error_count
            = (db.stats tid).today_error_count + k
        ∧ (record_success (errN tid k db) tid).tokens = (errN tid k db).tokens
        ∧ (∀ j, j < T →
            db_get_token (errN tid j (record_success (errN tid k db) tid)) tid = some tok)
        ∧ db_get_token (errN tid T (record_success (errN tid k db) tid)) tid
            = some { tok with is_active := false }) := by
  have hlt : ∀ k, k < T → db_get_token (errN tid k db) tid = some tok := by
    intro k hk
    rw [errN_token_self db tid tok k htok, if_neg (by rw [hth, hc]; omega)]
  have hT' : db_get_token (errN tid T db) tid = some { tok with is_active := false } := by
    rw [errN_token_self db tid tok T htok, if_pos (by rw [hth, hc]; omega)]
  refine ⟨⟨by rw [record_error_stats_self], by rw [record_error_stats_self, hc]⟩,
    hlt, hT', ?_, ?_⟩
  · intro tid2 hne
    exact ⟨errN_token_other db tid tid2 T hne, errN_stats_other db tid tid2 T hne⟩
  · intro k hk
    set db2 := record_success (errN tid k db) tid with hdb2
    have hstat2 : db2.stats tid = { (errN tid k db).stats tid with consecutive_error_count := 0 } :=
      record_success_stats_self _ _
    have htok2 : db_get_token db2 tid = some tok := by
      rw [hdb2, record_success_token]
      exact hlt k hk
    have hth2 : db2.threshold = T := by
      rw [hdb2, record_success_threshold, errN_threshold, hth]
    have hc2 : (db2.stats tid).consecutive_error_count = 0 := by
      rw [hstat2]
    refine ⟨hc2, ?_, ?_, record_success_tokens _ _, ?_, ?_⟩
    · rw [hstat2]
      show ((errN tid k db).stats tid).error_count = _
      rw [errN_stats_self]
    · rw [hstat2]
      show ((errN tid k db).stats tid).today_error_count = _
      rw [errN_stats_self]
    · intro j hj
      rw [errN_token_self db2 tid tok j htok2, if_neg (by rw [hth2, hc2]; omega)]
    · rw [errN_token_self db2 tid tok T htok2, if_pos (by rw [hth2, hc2]; omega)]

def dbC3 : DB :=
  { tokens := [{ tokC1 with at_expires := some 999999 }],
    stats := fun _ => ⟨0, 0, 0, 0, 0⟩, threshold := 2, tasks := [], logs := [] }

/-- Witness for `c3_theorem` with threshold 2 on a concrete pool. -/
theorem c3_theorem_witness :
    db_get_token (errN 1 2 dbC3) 1
      = some { ({ tokC1 with at_expires := some 999999 } : Token) with is_active := false } :=
  (c3_theorem dbC3 1 { tokC1 with at_expires := some 999999 } 2 rfl rfl
    (by norm_num) rfl).2.2.1

/-! ### C4: periodic auto-unban sweep -/

theorem apply_unban_token_self (db : DB) (tid : Nat) (tok : Token)
    (h : db_get_token db tid = some tok) :
    db_get_token (apply_unban db tid) tid
      = some { tok with is_active := true, ban_reason := none, banned_at := none } := by
  show db_get_token
      (db_update db tid (fun t =>
        { t with is_active := true, ban_reason := none, banned_at := none })) tid = _
  rw [db_get_token_update_self db tid
        (fun t => { t with is_active := true, ban_reason := none, banned_at := none })
        (fun t => rfl), h]
  rfl

theorem apply_unban_token_other (db : DB) (tid tid2 : Nat) (h : tid2 ≠ tid) :
    db_get_token (apply_unban db tid) tid2 = db_get_token db tid2 := by
  show db_get_token
      (db_update db tid (fun t =>
        { t with is_active := true, ban_reason := none, banned_at := none })) tid2 = _
  rw [db_get_token_update_other db tid tid2
        (fun t => { t with is_active := true, ban_reason := none, banned_at := none })
        (fun t => rfl) h]

theorem apply_unban_stats_self (db : DB) (tid : Nat) :
    (apply_unban db tid).stats tid = { db.stats tid with consecutive_error_count := 0 } := by
  unfold apply_unban db_reset_error_count db_update
  simp

theorem apply_unban_stats_other (db : DB) (tid tid2 : Nat) (h : tid2 ≠ tid) :
    (apply_unban db tid).stats tid2 = db.stats tid2 := by
  unfold apply_unban db_reset_error_count db_update
  simp [h]

/-- A fold of `unban_step` over rows whose ids all differ from `tid`
neither moves the `tid` row nor its statistics. -/
theorem foldl_unban_untouched (now : Int) (l : List Token) (tid : Nat)
    (h : ∀ t ∈ l, t.id ≠ tid) (acc : DB) :
    db_get_token (l.foldl (unban_step now) acc) tid = db_get_token acc tid
    ∧ (l.foldl (unban_step now) acc).stats tid = acc.stats tid := by
  induction l generalizing acc with
  | nil => exact ⟨rfl, rfl⟩
  | cons t l ih =>
    have ht : t.id ≠ tid := h t (List.mem_cons_self t l)
    have h2 : ∀ u ∈ l, u.id ≠ tid := fun u hu => h u (List.mem_cons_of_mem t hu)
    rw [List.foldl_cons]
    obtain ⟨ih1, ih2⟩ := ih h2 (unban_step now acc t)
    refine ⟨?_, ?_⟩
    · rw [ih1]
      unfold unban_step
      split
      · exact apply_unban_token_other acc t.id tid (Ne.symm ht)
      · rfl
    · rw [ih2]
      unfold unban_step
      split
      · exact apply_unban_stats_other acc t.id tid (Ne.symm ht)
      · rfl

/-- C4 (confirmed): the auto-unban sweep reactivates a row (clearing
ban reason and timestamp and resetting the consecutive error counter)
iff it is 429-banned, inactive, carries a ban timestamp at least 12
hours oldalongside an access credential that has not expired; every
other row — including an otherwise-eligible one whose credential has
expired — is left exactly as it was, statistics included. -/
theorem c4_theorem (now : Int) (db : DB)
    (hnd : (db.tokens.map Token.id).Nodup) (t : Token) (ht : t ∈ db.tokens) :
    (unban_eligible now t = true →
        db_get_token (auto_unban_429_tokens now db) t.id
          = some { t with is_active := true, ban_reason := none, banned_at := none }
        ∧ (auto_unban_429_tokens now db).stats t.id
            = { db.stats t.id with consecutive_error_count := 0 })
    ∧ (unban_eligible now t = false →
        db_get_token (auto_unban_429_tokens now db) t.id = some t
        ∧ (auto_unban_429_tokens now db).stats t.id = db.stats t.id) := by
  obtain ⟨l1, l2, hsplit⟩ := List.append_of_mem ht
  have hfind : db_get_token db t.id = some t := db_find_of_mem db.tokens hnd t ht
  have hnd2 : ((l1.map Token.id) ++ (t.id :: l2.map Token.id)).Nodup := by
    have := hsplit ▸ hnd
    simpa using this
  obtain ⟨-, hndr, hdisj⟩ := List.nodup_append.mp hnd2
  have hl1 : ∀ u ∈ l1, u.id ≠ t.id := by
    intro u hu he
    exact hdisj (he ▸ List.mem_map_of_mem Token.id hu) (List.mem_cons_self _ _)
  have hl2 : ∀ u ∈ l2, u.id ≠ t.id := by
    intro u hu he
    exact (List.nodup_cons.mp hndr).1 (he ▸ List.mem_map_of_mem Token.id hu)
  have hrun : auto_unban_429_tokens now db
      = l2.foldl (unban_step now) (unban_step now (l1.foldl (unban_step now) db) t) := by
    unfold auto_unban_429_tokens
    rw [hsplit, List.foldl_append, List.foldl_cons]
  obtain ⟨hacc1_tok, hacc1_st⟩ := foldl_unban_untouched now l1 t.id hl1 db
  constructor
  · intro hel
    have hstep : unban_step now (l1.foldl (unban_step now) db) t
        = apply_unban (l1.foldl (unban_step now) db) t.id := by
      unfold unban_step
      rw [if_pos hel]
    have hstep_tok : db_get_token (unban_step now (l1.foldl (unban_step now) db) t) t.id
        = some { t with is_active := true, ban_reason := none, banned_at := none } := by
      rw [hstep]
      exact apply_unban_token_self _ t.id t (hacc1_tok.trans hfind)
    have hstep_st : (unban_step now (l1.foldl (unban_step now) db) t).stats t.id
        = { db.stats t.id with consecutive_error_count := 0 } := by
      rw [hstep, apply_unban_stats_self, hacc1_st]
    obtain ⟨hf1, hf2⟩ := foldl_unban_untouched now l2 t.id hl2
      (unban_step now (l1.foldl (unban_step now) db) t)
    rw [hrun]
    exact ⟨hf1.trans hstep_tok, hf2.trans hstep_st⟩
  · intro hel
    have hstep : unban_step now (l1.foldl (unban_step now) db) t
        = l1.foldl (unban_step now) db := by
      unfold unban_step
      rw [if_neg (by simp [hel])]
    obtain ⟨hf1, hf2⟩ := foldl_unban_untouched now l2 t.id hl2
      (unban_step now (l1.foldl (unban_step now) db) t)
    rw [hrun]
    refine ⟨hf1.trans ?_, hf2.trans ?_⟩
    · rw [hstep]
      exact hacc1_tok.trans hfind
    · rw [hstep]
      exact hacc1_st

def tokC4 : Token :=
  { tokC1 with
    at_val := some "a",
    at_expires := some 999999,
    is_active := false,
    ban_reason := some "429_rate_limit",
    banned_at := some 0 }

def dbC4 : DB :=
  { tokens := [tokC4], stats := fun _ => ⟨3, 1, 2, 0, 0⟩, threshold := 3,
    tasks := [], logs := [] }

/-- Witness for `c4_theorem`: a 429-banned token, banned 12 hours ago
with an unexpired credential, is reactivated by the sweep. -/
theorem c4_theorem_witness :
    db_get_token (auto_unban_429_tokens 43200 dbC4) 1
      = some { tokC4 with is_active := true, ban_reason := none, banned_at := none } :=
  ((c4_theorem 43200 dbC4 (by decide) tokC4 (by decide)).1 (by decide)).1

/-! ### The concurrency gate, the load balancer and the orchestrator -/

/-- Modelled from the spec: the ConcurrencyGate's per-account in-flight
counters, one family per class (image, video); process-local and not
persisted. -/
structure Gate where
  image : Nat → Int
  video : Nat → Int

/-- Modelled from the spec: `tryAcquire` — atomically increment the
counter and admit iff the post-increment value is within the account's
limit for that class; a negative limit is the "unlimited" sentinel and
always admits; a rejected call leaves the counter unchanged. -/
def gate_try_acquire (g : Nat → Int) (tid : Nat) (limit : Int) : Bool × (Nat → Int) :=
  if limit < 0 then (true, fun n => if n = tid then g tid + 1 else g n)
  else if g tid + 1 ≤ limit then (true, fun n => if n = tid then g tid + 1 else g n)
  else (false, g)

/-- Modelled from the spec: `release` — atomically decrement, never
going below zero. -/
def gate_release (g : Nat → Int) (tid : Nat) : Nat → Int :=
  fun n => if n = tid then max (g tid - 1) 0 else g n

/-- Modelled from the spec: `LoadBalancer.select_token` eligibility —
the relevant enable flag set, the account active, and spare admission
capacity for the requested class. -/
def token_eligible (g : Gate) (for_image for_video : Bool) (t : Token) : Bool :=
  t.is_active &&
  (!for_image || (t.image_enabled &&
    (decide (t.image_concurrency < 0) || decide (g.image t.id < t.image_concurrency)))) &&
  (!for_video || (t.video_enabled &&
    (decide (t.video_concurrency < 0) || decide (g.video t.id < t.video_concurrency))))

/-- Modelled from the spec: `LoadBalancer.select_token` — one eligible
account or none; the spec allows any reproducible tie-break, the first
eligible account in pool order is used here; the optional model
constraint does not restrict eligibility further. -/
def select_token (db : DB) (g : Gate) (for_image for_video : Bool) : Option Token :=
  (db.tokens.filter (token_eligible g for_image for_video)).head?

/-- Caller-visible outputs of one orchestration run (the source
serializes these as OpenAI-style JSON; only the payload is modelled). -/
inductive Resp
  | chunk (content : String)
  | final (content : String)
  | completion (content : String)
  | availability (message : String)
  | err (message : String)
  deriving Repr, DecidableEq

/-- `GenerationHandler._create_completion_response`. -/
def create_completion_response (content : String) (media_type : String)
    (is_avail : Bool) : Resp :=
  if is_avail then .availability content
  else if media_type == "video" then
    .completion ("```html\n<video src='" ++ content ++ "' controls></video>\n```")
  else .completion ("![Generated Image](" ++ content ++ ")")

/-- Run state: the persistent store, the gate counters, the events
emitted (external calls and slot operations) and the responses yielded
so far. -/
structure St where
  db : DB
  gate : Gate
  evs : List Event
  out : List Resp

/-- Result of an embedded procedure: normal return or a raised
exception carrying its message. -/
inductive Res (α : Type)
  | ok (a : α)
  | exc (e : String)
  deriving Repr

def say (r : Resp) (s : St) : St := { s with out := s.out ++ [r] }

def emit (e : Event) (s : St) : St := { s with evs := s.evs ++ [e] }

def sayIf (b : Bool) (r : Resp) (s : St) : St := if b then say r s else s

/-- `db.create_task`. -/
def db_create_task (db : DB) (t : VTask) : DB := { db with tasks := db.tasks ++ [t] }

/-- `db.update_task` keyed by the remote task id. -/
def db_update_task (db : DB) (task_id : String) (f : VTask → VTask) : DB :=
  { db with tasks := db.tasks.map (fun t => if t.task_id == task_id then f t else t) }

/-- `GenerationHandler._log_request` (persistence failures are swallowed
in the source and cannot occur in the model). -/
def log_request (db : DB) (token_id : Option Nat) (operation : String) (code : Nat) : DB :=
  { db with logs := db.logs ++ [{ token_id := token_id, operation := operation, status_code := code }] }

/-- `TokenManager.record_usage` (usage counter of the used class). -/
def record_usage (db : DB) (tid : Nat) (is_video : Bool) : DB :=
  db_increment_usage db tid is_video

/-- Substring test on character lists, for the `"429" in str(e)`
check. -/
def charsContain : List Char → List Char → Bool
  | [], needle => needle.isEmpty
  | c :: t, needle => needle.isPrefixOf (c :: t) || charsContain t needle

def strContains (hay needle : String) : Bool := charsContain hay.toList needle.toList

/-- The handler's 429 detection: `"429" in str(e)` (the second
disjunct `"HTTP Error 429" in str(e)` of the source is subsumed). -/
def contains429 (e : String) : Bool := strContains e "429"

/-- The model-capability registry `MODEL_CONFIG` of
`generation_handler.py`; `ar` is the aspect-ratio constant. -/
structure MCfg where
  mtype : String
  model_name : String := ""
  model_key : String := ""
  ar : String
  video_type : String := ""
  supports_images : Bool := false
  min_images : Nat := 0
  max_images : Option Nat := none
  deriving Repr, DecidableEq

def MODEL_CONFIG : String → Option MCfg
  | "gemini-2.5-flash-image-landscape" =>
    some { mtype := "image", model_name := "GEM_PIX", ar := "IMAGE_ASPECT_RATIO_LANDSCAPE" }
  | "gemini-2.5-flash-image-portrait" =>
    some { mtype := "image", model_name := "GEM_PIX", ar := "IMAGE_ASPECT_RATIO_PORTRAIT" }
  | "gemini-3.0-pro-image-landscape" =>
    some { mtype := "image", model_name := "GEM_PIX_2", ar := "IMAGE_ASPECT_RATIO_LANDSCAPE" }
  | "gemini-3.0-pro-image-portrait" =>
    some { mtype := "image", model_name := "GEM_PIX_2", ar := "IMAGE_ASPECT_RATIO_PORTRAIT" }
  | "imagen-4.0-generate-preview-landscape" =>
    some { mtype := "image", model_name := "IMAGEN_3_5", ar := "IMAGE_ASPECT_RATIO_LANDSCAPE" }
  | "imagen-4.0-generate-preview-portrait" =>
    some { mtype := "image", model_name := "IMAGEN_3_5", ar := "IMAGE_ASPECT_RATIO_PORTRAIT" }
  | "veo_3_1_t2v_fast_portrait" =>
    some { mtype := "video", video_type := "t2v", model_key := "veo_3_1_t2v_fast_portrait",
           ar := "VIDEO_ASPECT_RATIO_PORTRAIT", supports_images := false }
  | "veo_3_1_t2v_fast_landscape" =>
    some { mtype := "video", video_type := "t2v", model_key := "veo_3_1_t2v_fast",
           ar := "VIDEO_ASPECT_RATIO_LANDSCAPE", supports_images := false }
  | "veo_2_1_fast_d_15_t2v_portrait" =>
    some { mtype := "video", video_type := "t2v", model_key := "veo_2_1_fast_d_15_t2v",
           ar := "VIDEO_ASPECT_RATIO_PORTRAIT", supports_images := false }
  | "veo_2_1_fast_d_15_t2v_landscape" =>
    some { mtype := "video", video_type := "t2v", model_key := "veo_2_1_fast_d_15_t2v",
           ar := "VIDEO_ASPECT_RATIO_LANDSCAPE", supports_images := false }
  | "veo_2_0_t2v_portrait" =>
    some { mtype := "video", video_type := "t2v", model_key := "veo_2_0_t2v",
           ar := "VIDEO_ASPECT_RATIO_PORTRAIT", supports_images := false }
  | "veo_2_0_t2v_landscape" =>
    some { mtype := "video", video_type := "t2v", model_key := "veo_2_0_t2v",
           ar := "VIDEO_ASPECT_RATIO_LANDSCAPE", supports_images := false }
  | "veo_3_1_i2v_s_fast_fl_portrait" =>
    some { mtype := "video", video_type := "i2v", model_key := "veo_3_1_i2v_s_fast_fl",
           ar := "VIDEO_ASPECT_RATIO_PORTRAIT", supports_images := true,
           min_images := 1, max_images := some 2 }
  | "veo_3_1_i2v_s_fast_fl_landscape" =>
    some { mtype := "video", video_type := "i2v", model_key := "veo_3_1_i2v_s_fast_fl",
           ar := "VIDEO_ASPECT_RATIO_LANDSCAPE", supports_images := true,
           min_images := 1, max_images := some 2 }
  | "veo_2_1_fast_d_15_i2v_portrait" =>
    some { mtype := "video", video_type := "i2v", model_key := "veo_2_1_fast_d_15_i2v",
           ar := "VIDEO_ASPECT_RATIO_PORTRAIT", supports_images := true,
           min_images := 1, max_images := some 2 }
  | "veo_2_1_fast_d_15_i2v_landscape" =>
    some { mtype := "video", video_type := "i2v", model_key := "veo_2_1_fast_d_15_i2v",
           ar := "VIDEO_ASPECT_RATIO_LANDSCAPE", supports_images := true,
           min_images := 1, max_images := some 2 }
  | "veo_2_0_i2v_portrait" =>
    some { mtype := "video", video_type := "i2v", model_key := "veo_2_0_i2v",
           ar := "VIDEO_ASPECT_RATIO_PORTRAIT", supports_images := true,
           min_images := 1, max_images := some 2 }
  | "veo_2_0_i2v_landscape" =>
    some { mtype := "video", video_type := "i2v", model_key := "veo_2_0_i2v",
           ar := "VIDEO_ASPECT_RATIO_LANDSCAPE", supports_images := true,
           min_images := 1, max_images := some 2 }
  | "veo_3_0_r2v_fast_portrait" =>
    some { mtype := "video", video_type := "r2v", model_key := "veo_3_0_r2v_fast",
           ar := "VIDEO_ASPECT_RATIO_PORTRAIT", supports_images := true,
           min_images := 0, max_images := none }
  | "veo_3_0_r2v_fast_landscape" =>
    some { mtype := "video", video_type := "r2v", model_key := "veo_3_0_r2v_fast",
           ar := "VIDEO_ASPECT_RATIO_LANDSCAPE", supports_images := true,
           min_images := 0, max_images := none }
  | _ => none

/-- The reference-image upload loop (image path announces per-image
progress to streaming callers, the r2v path does not). -/
def upload_images_loop (env : Env) (announce : Bool) (total : Nat) :
    List Nat → Nat → St → Res (List String) × St
  | [], _, s => (.ok [], s)
  | img :: rest, idx, s =>
    let s := emit (.uploadImage img) s
    match env.uploadImage img with
    | .error e => (.exc e, s)
    | .ok mid =>
      let s := sayIf announce
        (.chunk ("Uploaded " ++ toString (idx + 1) ++ "/" ++ toString total ++ " images\n")) s
      match upload_images_loop env announce total rest (idx + 1) s with
      | (.ok mids, s2) => (.ok (mid :: mids), s2)
      | (.exc e, s2) => (.exc e, s2)

/-- The shared caching step: download-and-cache with fallback to the
remote URL on any failure; disabled caching returns the URL
unchanged. -/
def cache_url (env : Env) (kind : String) (url : String) (stream : Bool) (s : St) :
    String × St :=
  if env.cache_enabled then
    let s := sayIf stream (.chunk (if kind == "video" then "Caching video file...\n"
      else "Caching image...\n")) s
    let s := emit (.cacheDownload url) s
    match env.cacheDownload url with
    | .ok fn =>
      (env.base_url ++ "/tmp/" ++ fn,
       sayIf stream (.chunk (if kind == "video" then
         "✅ Video cached successfully, preparing to return cached URL...\n"
         else "✅ Image cached successfully, preparing to return cached URL...\n")) s)
    | .error e =>
      (url, sayIf stream (.chunk ("⚠️ Cache failed: " ++ e ++ "\nReturning source link...\n")) s)
  else
    (url, sayIf stream (.chunk "Cache disabled, returning source link...\n") s)

/-- Generation call, URL extraction, caching and result emission of
`_handle_image_generation`. -/
def image_generate_and_return (env : Env) (image_inputs : List String)
    (stream : Bool) (s : St) : Res Unit × St :=
  let s := sayIf stream (.chunk "Generating image...\n") s
  let s := emit (.generateImage image_inputs) s
  match env.generateImage image_inputs with
  | .error e => (.exc e, s)
  | .ok media =>
    match media.head? with
    | none => (.ok (), say (.err "Generation result is empty") s)
    | some image_url =>
      let p := cache_url env "image" image_url stream s
      if stream then
        (.ok (), say (.final ("![Generated Image](" ++ p.1 ++ ")")) p.2)
      else
        (.ok (), say (create_completion_response p.1 "image" false) p.2)

/-- The body of `_handle_image_generation` inside the admission slot. -/
def image_body (env : Env) (images : List Nat) (stream : Bool) (s : St) :
    Res Unit × St :=
  if images.isEmpty then image_generate_and_return env [] stream s
  else
    let s := sayIf stream
      (.chunk ("Uploading " ++ toString images.length ++ " reference images...\n")) s
    match upload_images_loop env stream images.length images 0 s with
    | (.exc e, s2) => (.exc e, s2)
    | (.ok mids, s2) => image_generate_and_return env mids stream s2

/-- `GenerationHandler._handle_image_generation`: acquire the image
admission slot (reject yields an in-band error without taking the
slot); the `try`/`finally` of the source releases the slot on every
exit of the body, normal or exceptional. -/
def handle_image_generation (env : Env) (tok : Token) (images : List Nat)
    (stream : Bool) (s : St) : Res Unit × St :=
  let a := gate_try_acquire s.gate.image tok.id tok.image_concurrency
  let s := emit (.acquireImg tok.id a.1) { s with gate := { s.gate with image := a.2 } }
  if a.1 = false then (.ok (), say (.err "Image concurrency limit reached") s)
  else
    match image_body env images stream s with
    | (r, s2) =>
      (r, emit (.releaseImg tok.id)
        { s2 with gate := { s2.gate with image := gate_release s2.gate.image tok.id } })

def poll_timeout_msg (n : Nat) : String :=
  "Video generation timeout (polled " ++ toString n ++ " times)"

/-- `GenerationHandler._poll_video_result`: a loop of at most
`max_poll_attempts` iterations (`fuel` is the remaining budget,
`attempt` the 0-based index), each sleeping `poll_interval` and then
querying status; exceptions of an individual check (including a
missing status field) are swallowed and the loop continues. -/
def poll_go (env : Env) (stream : Bool) : Nat → Nat → St → Res Unit × St
  | 0, _, s => (.ok (), say (.err (poll_timeout_msg env.max_poll_attempts)) s)
  | fuel + 1, attempt, s =>
    let s := emit (.sleep env.poll_interval) s
    let s := emit (.checkStatus attempt) s
    match env.checkStatus attempt with
    | .error _ => poll_go env stream fuel (attempt + 1) s
    | .ok checked =>
      match checked.head? with
      | none => poll_go env stream fuel (attempt + 1) s
      | some op =>
        let s := sayIf (stream && attempt % 7 == 0)
          (.chunk ("Generation progress: "
            ++ toString (min (attempt * 100 / env.max_poll_attempts) 95) ++ "%\n")) s
        match op.status with
        | none => poll_go env stream fuel (attempt + 1) s
        | some status =>
          if status == "MEDIA_GENERATION_STATUS_SUCCESSFUL" then
            match op.videoUrl with
            | none => (.ok (), say (.err "Video URL is empty") s)
            | some video_url =>
              let p := cache_url env "video" video_url stream s
              let db2 := db_update_task p.2.db op.name (fun t =>
                { t with
                  status := "completed",
                  progress := 100,
                  result_urls := [p.1],
                  completed_at := some env.now })
              let s := { p.2 with db := db2 }
              if stream then
                (.ok (), say (.final
                  ("<video src='" ++ p.1 ++ "' controls style='max-width:100%'></video>")) s)
              else (.ok (), say (create_completion_response p.1 "video" false) s)
          else if status.startsWith "MEDIA_GENERATION_STATUS_ERROR" then
            (.ok (), say (.err ("Video generation failed: " ++ status)) s)
          else poll_go env stream fuel (attempt + 1) s

def poll_video_result (env : Env) (stream : Bool) (s : St) : Res Unit × St :=
  poll_go env stream env.max_poll_attempts 0 s

/-- Video submission (the call kind carries the uploaded frame or
reference media ids), Task persistence and hand-off to the polling
loop. -/
def video_submit_and_poll (env : Env) (tok : Token) (cfg : MCfg) (prompt : String)
    (stream : Bool) (k : SubmitKind) (s : St) : Res Unit × St :=
  let s := sayIf stream (.chunk "Submitting video generation task...\n") s
  let s := emit (.submitVideo k) s
  match env.submitVideo k with
  | .error e => (.exc e, s)
  | .ok operations =>
    match operations.head? with
    | none => (.ok (), say (.err "Video generation task creation failed") s)
    | some op =>
      let task : VTask :=
        { task_id := op.name, token_id := tok.id, model := cfg.model_key,
          prompt := prompt, status := "processing", scene_id := op.sceneId,
          progress := 0, result_urls := [], completed_at := none }
      let s := { s with db := db_create_task s.db task }
      let s := sayIf stream (.chunk "Generating video...\n") s
      poll_video_result env stream s

/-- The body of `_handle_video_generation` inside the admission slot:
sub-kind validation and image handling (t2v drops images with a
warning; i2v requires 1-2 images, uploading start or start+end frames;
r2v uploads all images), then submission and polling. -/
def video_body (env : Env) (tok : Token) (cfg : MCfg) (prompt : String)
    (images0 : List Nat) (stream : Bool) (s : St) : Res Unit × St :=
  let image_count0 := images0.length
  if cfg.video_type == "t2v" then
    let s := sayIf (stream && decide (0 < image_count0))
      (.chunk "⚠️ T2V model does not support image upload, ignoring images and using text prompt only\n") s
    video_submit_and_poll env tok cfg prompt stream .text s
  else if cfg.video_type == "i2v" then
    if image_count0 < cfg.min_images || decide (cfg.max_images.getD 0 < image_count0) then
      let msg := "❌ I2V model needs " ++ toString cfg.min_images ++ "-"
        ++ toString (cfg.max_images.getD 0) ++ " images, " ++ toString image_count0 ++ " provided"
      let s := sayIf stream (.chunk (msg ++ "\n")) s
      (.ok (), say (.err msg) s)
    else
      match images0 with
      | [i1] =>
        let s := sayIf stream (.chunk "Uploading start frame image...\n") s
        let s := emit (.uploadImage i1) s
        match env.uploadImage i1 with
        | .error e => (.exc e, s)
        | .ok start_id => video_submit_and_poll env tok cfg prompt stream (.startImage start_id) s
      | [i1, i2] =>
        let s := sayIf stream (.chunk "Uploading start and end frame images...\n") s
        let s := emit (.uploadImage i1) s
        match env.uploadImage i1 with
        | .error e => (.exc e, s)
        | .ok start_id =>
          let s := emit (.uploadImage i2) s
          match env.uploadImage i2 with
          | .error e => (.exc e, s)
          | .ok end_id => video_submit_and_poll env tok cfg prompt stream (.startEnd start_id end_id) s
      | _ => video_submit_and_poll env tok cfg prompt stream .text s
  else if cfg.video_type == "r2v" then
    if images0.isEmpty then video_submit_and_poll env tok cfg prompt stream .text s
    else
      let s := sayIf stream
        (.chunk ("Uploading " ++ toString image_count0 ++ " reference images...\n")) s
      match upload_images_loop env false image_count0 images0 0 s with
      | (.exc e, s2) => (.exc e, s2)
      | (.ok mids, s2) => video_submit_and_poll env tok cfg prompt stream (.refImages mids) s2
  else video_submit_and_poll env tok cfg prompt stream .text s

/-- `GenerationHandler._handle_video_generation`: acquire the video
admission slot (reject yields an in-band error without taking the
slot); the `try`/`finally` of the source releases the slot only when
the whole flow, polling included, exits. -/
def handle_video_generation (env : Env) (tok : Token) (cfg : MCfg) (prompt : String)
    (images : List Nat) (stream : Bool) (s : St) : Res Unit × St :=
  let a := gate_try_acquire s.gate.video tok.id tok.video_concurrency
  let s := emit (.acquireVid tok.id a.1) { s with gate := { s.gate with video := a.2 } }
  if a.1 = false then (.ok (), say (.err "Video concurrency limit reached") s)
  else
    match video_body env tok cfg prompt images stream s with
    | (r, s2) =>
      (r, emit (.releaseVid tok.id)
        { s2 with gate := { s2.gate with video := gate_release s2.gate.video tok.id } })

/-- `GenerationHandler._get_no_token_error_message`. -/
def get_no_token_error_message (generation_type : String) : String :=
  if generation_type == "image" then
    "No tokens available for image generation. All tokens are disabled, in cooldown, locked, or expired."
  else
    "No tokens available for video generation. All tokens are disabled, in cooldown, quota exhausted, or expired."

/-- The `try` block of `handle_generation` (steps 3-5): credential
check, re-read of the token, project creation, dispatch.  `.ok true`
means the dispatch generator finished (so the success bookkeeping of
steps 6-7 runs); `.ok false` is the early in-band return on a failed
credential check; `.exc` is a raised exception to be classified. -/
def generation_attempt (env : Env) (cfg : MCfg) (prompt : String) (images : List Nat)
    (stream : Bool) (tok : Token) (s : St) : Res Bool × St :=
  let s0 := sayIf stream (.chunk "Initializing generation environment...\n") s
  match is_at_valid env s0.db tok.id with
  | (at_ok, db1, evs1) =>
    let s1 := { s0 with db := db1, evs := s0.evs ++ evs1 }
    if at_ok = false then
      (.ok false, say (.err "Token AT invalid or refresh failed")
        (sayIf stream (.chunk "❌ Token AT invalid or refresh failed\n") s1))
    else
      match db_get_token s1.db tok.id with
      | none => (.exc "Token not found", s1)
      | some tok2 =>
        match ensure_project_exists env s1.db tok2.id with
        | (pres, dbp, evsp) =>
          let s2 := { s1 with db := dbp, evs := s1.evs ++ evsp }
          match pres with
          | .error e => (.exc e, s2)
          | .ok _ =>
            if cfg.mtype == "image" then
              match handle_image_generation env tok2 images stream s2 with
              | (.ok _, s3) => (.ok true, s3)
              | (.exc e, s3) => (.exc e, s3)
            else
              match handle_video_generation env tok2 cfg prompt images stream s2 with
              | (.ok _, s3) => (.ok true, s3)
              | (.exc e, s3) => (.exc e, s3)

/-- `GenerationHandler.handle_generation`: model validation; for
non-streaming callers an availability probe only; otherwise account
selection, the guarded attempt, then success bookkeeping (usage,
consecutive-error reset, success log) when the attempt block finished,
or failure classification (429 ban / error count, then error response
and failure log) when it raised. -/
def handle_generation (env : Env) (model : String) (prompt : String)
    (images : List Nat) (stream : Bool) (s : St) : St :=
  match MODEL_CONFIG model with
  | none => say (.err ("Unsupported model: " ++ model)) s
  | some cfg =>
    let generation_type := cfg.mtype
    if stream = false then
      let is_image := generation_type == "image"
      let is_video := generation_type == "video"
      let s := emit (.selectToken is_image is_video) s
      let available := (select_token s.db s.gate is_image is_video).isSome
      let message :=
        if available then
          if is_image then
            "All tokens are available for image generation. Please enable streaming mode to use generation functionality."
          else
            "All tokens are available for video generation. Please enable streaming mode to use generation functionality."
        else
          if is_image then "No tokens available for image generation"
          else "No tokens available for video generation"
      say (.availability message) s
    else
      let s := say (.chunk ("✨ " ++ (if generation_type == "video" then "Video" else "Image")
        ++ " generation task started\n")) s
      let s := emit (.selectToken (generation_type == "image") (generation_type == "video")) s
      match select_token s.db s.gate (generation_type == "image") (generation_type == "video") with
      | none =>
        let error_msg := get_no_token_error_message generation_type
        let s := say (.chunk ("❌ " ++ error_msg ++ "\n")) s
        say (.err error_msg) s
      | some tok =>
        match generation_attempt env cfg prompt images stream tok s with
        | (.ok true, s2) =>
          let s2 := { s2 with db := record_usage s2.db tok.id (generation_type == "video") }
          let s2 := { s2 with db := record_success s2.db tok.id }
          { s2 with db := log_request s2.db (some tok.id) ("generate_" ++ generation_type) 200 }
        | (.ok false, s2) => s2
        | (.exc e, s2) =>
          let error_msg := "Generation failed: " ++ e
          let s2 := say (.chunk ("❌ " ++ error_msg ++ "\n")) s2
          let db2 := if contains429 e then ban_token_for_429 env.now s2.db tok.id
            else record_error s2.db tok.id
          let s2 := { s2 with db := db2 }
          let s2 := say (.err error_msg) s2
          { s2 with db := log_request s2.db (some tok.id) ("generate_" ++ generation_type) 500 }

/-! ### Run-state preservation lemmas -/

def is_release (e : Event) : Bool :=
  match e with
  | .releaseImg _ => true
  | .releaseVid _ => true
  | _ => false

def is_submit (e : Event) : Bool :=
  match e with
  | .submitVideo _ => true
  | _ => false

def is_sleep_ev (e : Event) : Bool :=
  match e with
  | .sleep _ => true
  | _ => false

def is_check_ev (e : Event) : Bool :=
  match e with
  | .checkStatus _ => true
  | _ => false

@[simp] theorem say_db (r : Resp) (s : St) : (say r s).db = s.db := rfl
@[simp] theorem say_gate (r : Resp) (s : St) : (say r s).gate = s.gate := rfl
@[simp] theorem say_evs (r : Resp) (s : St) : (say r s).evs = s.evs := rfl
@[simp] theorem say_out (r : Resp) (s : St) : (say r s).out = s.out ++ [r] := rfl
@[simp] theorem emit_db (e : Event) (s : St) : (emit e s).db = s.db := rfl
@[simp] theorem emit_gate (e : Event) (s : St) : (emit e s).gate = s.gate := rfl
@[simp] theorem emit_evs (e : Event) (s : St) : (emit e s).evs = s.evs ++ [e] := rfl
@[simp] theorem emit_out (e : Event) (s : St) : (emit e s).out = s.out := rfl
@[simp] theorem sayIf_db (b : Bool) (r : Resp) (s : St) : (sayIf b r s).db = s.db := by
  cases b <;> rfl
@[simp] theorem sayIf_gate (b : Bool) (r : Resp) (s : St) : (sayIf b r s).gate = s.gate := by
  cases b <;> rfl
@[simp] theorem sayIf_evs (b : Bool) (r : Resp) (s : St) : (sayIf b r s).evs = s.evs := by
  cases b <;> rfl

/-- The caching step touches neither the store nor the gate, and emits
at most one download event. -/
theorem cache_url_frame (env : Env) (kind url : String) (stream : Bool) (s : St) :
    (cache_url env kind url stream s).2.db = s.db
    ∧ (cache_url env kind url stream s).2.gate = s.gate
    ∧ ∃ l, (cache_url env kind url stream s).2.evs = s.evs ++ l
        ∧ ∀ e ∈ l, ∃ u, e = Event.cacheDownload u := by
  unfold cache_url
  by_cases hc : env.cache_enabled
  · simp only [hc, if_true]
    cases hd : env.cacheDownload url <;>
      exact ⟨by simp, by simp, [.cacheDownload url], by simp, by simp⟩
  · simp only [hc]
    exact ⟨by simp, by simp, [], by simp, by simp⟩

/-- The upload loop touches neither the store nor the gate, and emits
only upload events. -/
theorem upload_images_loop_frame (env : Env) (announce : Bool) (total : Nat)
    (imgs : List Nat) (idx : Nat) (s : St) :
    (upload_images_loop env announce total imgs idx s).2.db = s.db
    ∧ (upload_images_loop env announce total imgs idx s).2.gate = s.gate
    ∧ ∃ l, (upload_images_loop env announce total imgs idx s).2.evs = s.evs ++ l
        ∧ ∀ e ∈ l, ∃ i, e = Event.uploadImage i := by
  induction imgs generalizing idx s with
  | nil => exact ⟨rfl, rfl, [], by simp [upload_images_loop], by simp⟩
  | cons img rest ih =>
    unfold upload_images_loop
    cases hu : env.uploadImage img with
    | error e =>
      exact ⟨by simp, by simp, [.uploadImage img], by simp, by simp⟩
    | ok mid =>
      obtain ⟨h1, h2, l, h3, h4⟩ :=
        ih (idx + 1) (sayIf announce
          (.chunk ("Uploaded " ++ toString (idx + 1) ++ "/" ++ toString total ++ " images\n"))
          (emit (.uploadImage img) s))
      cases hrec : upload_images_loop env announce total rest (idx + 1)
        (sayIf announce
          (.chunk ("Uploaded " ++ toString (idx + 1) ++ "/" ++ toString total ++ " images\n"))
          (emit (.uploadImage img) s)) with
      | mk r s2 =>
        rw [hrec] at h1 h2 h3
        simp only [sayIf_db, emit_db, sayIf_gate, emit_gate, sayIf_evs, emit_evs] at h1 h2 h3
        cases r <;>
        · refine ⟨by simp [hrec, h1], by simp [hrec, h2], .uploadImage img :: l, ?_, ?_⟩
          · simp [hrec, h3]
          · intro e he
            rcases List.mem_cons.mp he with rfl | he2
            · exact ⟨img, rfl⟩
            · exact h4 e he2

/-- The image generation-and-return step touches neither the store nor
the gate and emits only generation/cache events. -/
theorem image_generate_frame (env : Env) (image_inputs : List String)
    (stream : Bool) (s : St) :
    (image_generate_and_return env image_inputs stream s).2.db = s.db
    ∧ (image_generate_and_return env image_inputs stream s).2.gate = s.gate
    ∧ ∃ l, (image_generate_and_return env image_inputs stream s).2.evs = s.evs ++ l
        ∧ ∀ e ∈ l, e = Event.generateImage image_inputs ∨ ∃ u, e = Event.cacheDownload u := by
  unfold image_generate_and_return
  cases hg : env.generateImage image_inputs with
  | error e =>
    simp only [hg]
    exact ⟨by simp, by simp, [.generateImage image_inputs], by simp, by simp⟩
  | ok media =>
    simp only [hg]
    cases hh : media.head? with
    | none =>
      simp only [hh]
      exact ⟨by simp, by simp, [.generateImage image_inputs], by simp, by simp⟩
    | some image_url =>
      simp only [hh]
      obtain ⟨h1, h2, l, h3, h4⟩ := cache_url_frame env "image" image_url stream
        (emit (.generateImage image_inputs) (sayIf stream (.chunk "Generating image...\n") s))
      simp only [sayIf_db, emit_db, sayIf_gate, emit_gate, sayIf_evs, emit_evs] at h1 h2 h3
      cases stream <;>
      · refine ⟨by simp [h1], by simp [h2], .generateImage image_inputs :: l, by simp [h3], ?_⟩
        intro e he
        rcases List.mem_cons.mp he with rfl | he2
        · exact Or.inl rfl
        · exact Or.inr (h4 e he2)

/-- The image dispatch body preserves the store and the gate and never
emits a release event. -/
theorem image_body_frame (env : Env) (images : List Nat) (stream : Bool) (s : St) :
    (image_body env images stream s).2.db = s.db
    ∧ (image_body env images stream s).2.gate = s.gate
    ∧ ∃ l, (image_body env images stream s).2.evs = s.evs ++ l
        ∧ ∀ e ∈ l, is_release e = false ∧ is_submit e = false := by
  have himg : ∀ (ii : List String) (s1 : St),
      (image_generate_and_return env ii stream s1).2.db = s1.db
      ∧ (image_generate_and_return env ii stream s1).2.gate = s1.gate
      ∧ ∃ l, (image_generate_and_return env ii stream s1).2.evs = s1.evs ++ l
          ∧ ∀ e ∈ l, is_release e = false ∧ is_submit e = false := by
    intro ii s1
    obtain ⟨h1, h2, l, h3, h4⟩ := image_generate_frame env ii stream s1
    refine ⟨h1, h2, l, h3, ?_⟩
    intro e he
    rcases h4 e he with rfl | ⟨u, rfl⟩ <;> exact ⟨rfl, rfl⟩
  unfold image_body
  by_cases he : images.isEmpty
  · simp only [he, if_true]
    exact himg [] s
  · simp only [he]
    obtain ⟨h1, h2, l, h3, h4⟩ := upload_images_loop_frame env stream images.length images 0
      (sayIf stream (.chunk ("Uploading " ++ toString images.length ++ " reference images...\n")) s)
    cases hrec : upload_images_loop env stream images.length images 0
      (sayIf stream (.chunk ("Uploading " ++ toString images.length ++ " reference images...\n")) s) with
    | mk r s2 =>
      rw [hrec] at h1 h2 h3
      simp only [sayIf_db, sayIf_gate, sayIf_evs] at h1 h2 h3
      cases r with
      | exc e =>
        refine ⟨by simp [hrec, h1], by simp [hrec, h2], l, by simp [hrec, h3], ?_⟩
        intro e2 he2
        obtain ⟨i, rfl⟩ := h4 e2 he2
        exact ⟨rfl, rfl⟩
      | ok mids =>
        obtain ⟨g1, g2, l2, g3, g4⟩ := himg mids s2
        refine ⟨by simp [hrec, g1, h1], by simp [hrec, g2, h2], l ++ l2, ?_, ?_⟩
        · simp [hrec, g3, h3, List.append_assoc]
        · intro e2 he2
          rcases List.mem_append.mp he2 with hm | hm
          · obtain ⟨i, rfl⟩ := h4 e2 hm
            exact ⟨rfl, rfl⟩
          · exact g4 e2 hm

/-- Store components preserved by the task-table updates. -/
theorem db_update_task_frame (db : DB) (task_id : String) (f : VTask → VTask) :
    (db_update_task db task_id f).stats = db.stats
    ∧ (db_update_task db task_id f).tokens = db.tokens
    ∧ (db_update_task db task_id f).logs = db.logs
    ∧ (db_update_task db task_id f).threshold = db.threshold :=
  ⟨rfl, rfl, rfl, rfl⟩

/-- Both arms of a stream/non-stream result emission share every state
component. -/
theorem ite_say_db (c : Prop) [Decidable c] (r1 r2 : Resp) (st : St) :
    ((if c then ((Res.ok ()), say r1 st) else ((Res.ok ()), say r2 st) : Res Unit × St)).2.db
      = st.db := by
  split <;> rfl

theorem ite_say_gate (c : Prop) [Decidable c] (r1 r2 : Resp) (st : St) :
    ((if c then ((Res.ok ()), say r1 st) else ((Res.ok ()), say r2 st) : Res Unit × St)).2.gate
      = st.gate := by
  split <;> rfl

theorem ite_say_evs (c : Prop) [Decidable c] (r1 r2 : Resp) (st : St) :
    ((if c then ((Res.ok ()), say r1 st) else ((Res.ok ()), say r2 st) : Res Unit × St)).2.evs
      = st.evs := by
  split <;> rfl

/-- The polling loop: preserves token rows, statistics, logs, threshold
and the gate; emits no release and no submission event; and performs at
most `fuel` iterations, each with exactly one sleep and one status
check. -/
theorem poll_go_frame (env : Env) (stream : Bool) (fuel : Nat) :
    ∀ (attempt : Nat) (s : St),
    ((poll_go env stream fuel attempt s).2).db.stats = s.db.stats
    ∧ ((poll_go env stream fuel attempt s).2).db.tokens = s.db.tokens
    ∧ ((poll_go env stream fuel attempt s).2).db.logs = s.db.logs
    ∧ ((poll_go env stream fuel attempt s).2).db.threshold = s.db.threshold
    ∧ ((poll_go env stream fuel attempt s).2).gate = s.gate
    ∧ ∃ l, ((poll_go env stream fuel attempt s).2).evs = s.evs ++ l
        ∧ (∀ e ∈ l, is_release e = false ∧ is_submit e = false)
        ∧ l.countP is_sleep_ev ≤ fuel
        ∧ l.countP is_sleep_ev = l.countP is_check_ev
        ∧ l.countP (fun e => e == Event.sleep env.poll_interval) = l.countP is_check_ev := by
  induction fuel with
  | zero =>
    intro attempt s
    exact ⟨rfl, rfl, rfl, rfl, rfl, [], by simp [poll_go], by simp, by simp, by simp, by simp⟩
  | succ fuel ih =>
    intro attempt s
    have hcont : ∀ s1 : St,
        s1.db = s.db → s1.gate = s.gate → s1.evs = s.evs ++ [.sleep env.poll_interval, .checkStatus attempt] →
        ((poll_go env stream fuel (attempt + 1) s1).2).db.stats = s.db.stats
        ∧ ((poll_go env stream fuel (attempt + 1) s1).2).db.tokens = s.db.tokens
        ∧ ((poll_go env stream fuel (attempt + 1) s1).2).db.logs = s.db.logs
        ∧ ((poll_go env stream fuel (attempt + 1) s1).2).db.threshold = s.db.threshold
        ∧ ((poll_go env stream fuel (attempt + 1) s1).2).gate = s.gate
        ∧ ∃ l, ((poll_go env stream fuel (attempt + 1) s1).2).evs = s.evs ++ l
            ∧ (∀ e ∈ l, is_release e = false ∧ is_submit e = false)
            ∧ l.countP is_sleep_ev ≤ fuel + 1
            ∧ l.countP is_sleep_ev = l.countP is_check_ev
            ∧ l.countP (fun e => e == Event.sleep env.poll_interval) = l.countP is_check_ev := by
      intro s1 hdb hgate hevs
      obtain ⟨i1, i2, i3, i4, i5, l, i6, i7, i8, i9, i10⟩ := ih (attempt + 1) s1
      refine ⟨by rw [i1, hdb], by rw [i2, hdb], by rw [i3, hdb], by rw [i4, hdb],
        by rw [i5, hgate], [.sleep env.poll_interval, .checkStatus attempt] ++ l, ?_, ?_, ?_, ?_, ?_⟩
      · rw [i6, hevs, List.append_assoc]
      · intro e he
        rcases List.mem_append.mp he with hm | hm
        · rcases List.mem_cons.mp hm with rfl | hm2
          · exact ⟨rfl, rfl⟩
          · rcases List.mem_cons.mp hm2 with rfl | hm3
            · exact ⟨rfl, rfl⟩
            · cases hm3
        · exact i7 e hm
      · simp only [List.countP_append]
        have : List.countP is_sleep_ev [Event.sleep env.poll_interval, Event.checkStatus attempt] = 1 := by
          simp [List.countP_cons, is_sleep_ev]
        omega
      · simp only [List.countP_append]
        have h1 : List.countP is_sleep_ev [Event.sleep env.poll_interval, Event.checkStatus attempt] = 1 := by
          simp [List.countP_cons, is_sleep_ev]
        have h2 : List.countP is_check_ev [Event.sleep env.poll_interval, Event.checkStatus attempt] = 1 := by
          simp [List.countP_cons, is_check_ev]
        omega
      · simp only [List.countP_append]
        have h1 : List.countP (fun e => e == Event.sleep env.poll_interval)
            [Event.sleep env.poll_interval, Event.checkStatus attempt] = 1 := by
          simp [List.countP_cons]
        have h2 : List.countP is_check_ev [Event.sleep env.poll_interval, Event.checkStatus attempt] = 1 := by
          simp [List.countP_cons, is_check_ev]
        omega
    have hterm : ∀ s1 : St, ∀ r : Resp,
        s1.db = s.db → s1.gate = s.gate → s1.evs = s.evs ++ [.sleep env.poll_interval, .checkStatus attempt] →
        (say r s1).db.stats = s.db.stats
        ∧ (say r s1).db.tokens = s.db.tokens
        ∧ (say r s1).db.logs = s.db.logs
        ∧ (say r s1).db.threshold = s.db.threshold
        ∧ (say r s1).gate = s.gate
        ∧ ∃ l, (say r s1).evs = s.evs ++ l
            ∧ (∀ e ∈ l, is_release e = false ∧ is_submit e = false)
            ∧ l.countP is_sleep_ev ≤ fuel + 1
            ∧ l.countP is_sleep_ev = l.countP is_check_ev
            ∧ l.countP (fun e => e == Event.sleep env.poll_interval) = l.countP is_check_ev := by
      intro s1 r hdb hgate hevs
      refine ⟨by simp [hdb], by simp [hdb], by simp [hdb], by simp [hdb], by simp [hgate],
        [.sleep env.poll_interval, .checkStatus attempt], by simp [hevs], ?_, ?_, ?_, ?_⟩
      · intro e he
        rcases List.mem_cons.mp he with rfl | hm
        · exact ⟨rfl, rfl⟩
        · rcases List.mem_cons.mp hm with rfl | hm2
          · exact ⟨rfl, rfl⟩
          · cases hm2
      · simp [List.countP_cons, is_sleep_ev]
      · simp [List.countP_cons, is_sleep_ev, is_check_ev]
      · simp [List.countP_cons, is_check_ev]
    simp only [poll_go]
    cases hchk : env.checkStatus attempt with
    | error msg =>
      exact hcont (emit (.checkStatus attempt) (emit (.sleep env.poll_interval) s))
        (by simp) (by simp) (by simp)
    | ok checked =>
      simp only [hchk]
      cases hhd : checked.head? with
      | none =>
        simp only [hhd]
        exact hcont (emit (.checkStatus attempt) (emit (.sleep env.poll_interval) s))
          (by simp) (by simp) (by simp)
      | some op =>
        simp only [hhd]
        cases hst : op.status with
        | none =>
          simp only [hst]
          exact hcont (sayIf (stream && attempt % 7 == 0)
              (.chunk ("Generation progress: "
                ++ toString (min (attempt * 100 / env.max_poll_attempts) 95) ++ "%\n"))
              (emit (.checkStatus attempt) (emit (.sleep env.poll_interval) s)))
            (by simp) (by simp) (by simp)
        | some status =>
          simp only [hst]
          by_cases hsucc : (status == "MEDIA_GENERATION_STATUS_SUCCESSFUL") = true
          · rw [if_pos hsucc]
            cases hurl : op.videoUrl with
            | none =>
              simp only [hurl]
              exact hterm (sayIf (stream && attempt % 7 == 0)
                  (.chunk ("Generation progress: "
                    ++ toString (min (attempt * 100 / env.max_poll_attempts) 95) ++ "%\n"))
                  (emit (.checkStatus attempt) (emit (.sleep env.poll_interval) s)))
                (.err "Video URL is empty") (by simp) (by simp) (by simp)
            | some video_url =>
              simp only [hurl]
              obtain ⟨c1, c2, lc, c3, c4⟩ := cache_url_frame env "video" video_url stream
                (sayIf (stream && attempt % 7 == 0)
                  (.chunk ("Generation progress: "
                    ++ toString (min (attempt * 100 / env.max_poll_attempts) 95) ++ "%\n"))
                  (emit (.checkStatus attempt) (emit (.sleep env.poll_interval) s)))
              simp only [sayIf_db, emit_db, sayIf_gate, emit_gate, sayIf_evs, emit_evs] at c1 c2 c3
              have hquiet : ∀ e ∈ lc, is_release e = false ∧ is_submit e = false := by
                intro e he
                obtain ⟨u, rfl⟩ := c4 e he
                exact ⟨rfl, rfl⟩
              have hzero : lc.countP is_sleep_ev = 0 ∧ lc.countP is_check_ev = 0 := by
                constructor <;>
                · rw [List.countP_eq_zero]
                  intro e he
                  obtain ⟨u, rfl⟩ := c4 e he
                  simp [is_sleep_ev, is_check_ev]
              refine ⟨by simp only [ite_say_db]; simp [db_update_task, c1],
                by simp only [ite_say_db]; simp [db_update_task, c1],
                by simp only [ite_say_db]; simp [db_update_task, c1],
                by simp only [ite_say_db]; simp [db_update_task, c1],
                by simp only [ite_say_gate]; simp [c2],
                [.sleep env.poll_interval, .checkStatus attempt] ++ lc, ?_, ?_, ?_, ?_, ?_⟩
              · simp only [ite_say_evs]
                simp [c3, List.append_assoc]
              · intro e he
                rcases List.mem_append.mp he with hm | hm
                · rcases List.mem_cons.mp hm with rfl | hm2
                  · exact ⟨rfl, rfl⟩
                  · rcases List.mem_cons.mp hm2 with rfl | hm3
                    · exact ⟨rfl, rfl⟩
                    · cases hm3
                · exact hquiet e hm
              · simp only [List.countP_append]
                have : List.countP is_sleep_ev [Event.sleep env.poll_interval, Event.checkStatus attempt] = 1 := by
                  simp [List.countP_cons, is_sleep_ev]
                omega
              · simp only [List.countP_append]
                have h1 : List.countP is_sleep_ev [Event.sleep env.poll_interval, Event.checkStatus attempt] = 1 := by
                  simp [List.countP_cons, is_sleep_ev]
                have h2 : List.countP is_check_ev [Event.sleep env.poll_interval, Event.checkStatus attempt] = 1 := by
                  simp [List.countP_cons, is_check_ev]
                omega
              · simp only [List.countP_append]
                have h1 : List.countP (fun e => e == Event.sleep env.poll_interval)
                    [Event.sleep env.poll_interval, Event.checkStatus attempt] = 1 := by
                  simp [List.countP_cons]
                have h2 : List.countP is_check_ev [Event.sleep env.poll_interval, Event.checkStatus attempt] = 1 := by
                  simp [List.countP_cons, is_check_ev]
                have h3 : List.countP (fun e => e == Event.sleep env.poll_interval) lc = 0 := by
                  rw [List.countP_eq_zero]
                  intro e he
                  obtain ⟨u, rfl⟩ := c4 e he
                  simp
                omega
          · rw [if_neg hsucc]
            by_cases herr : (status.startsWith "MEDIA_GENERATION_STATUS_ERROR") = true
            · rw [if_pos herr]
              exact hterm (sayIf (stream && attempt % 7 == 0)
                  (.chunk ("Generation progress: "
                    ++ toString (min (attempt * 100 / env.max_poll_attempts) 95) ++ "%\n"))
                  (emit (.checkStatus attempt) (emit (.sleep env.poll_interval) s)))
                (.err ("Video generation failed: " ++ status)) (by simp) (by simp) (by simp)
            · rw [if_neg herr]
              exact hcont (sayIf (stream && attempt % 7 == 0)
                  (.chunk ("Generation progress: "
                    ++ toString (min (attempt * 100 / env.max_poll_attempts) 95) ++ "%\n"))
                  (emit (.checkStatus attempt) (emit (.sleep env.poll_interval) s)))
                (by simp) (by simp) (by simp)

/-- Video submission and polling: preserves token rows, statistics,
logs, threshold and the gate; emits exactly one submission event (of
the given kind) followed only by poll-internal events. -/
theorem video_submit_and_poll_frame (env : Env) (tok : Token) (cfg : MCfg)
    (prompt : String) (stream : Bool) (k : SubmitKind) (s : St) :
    ((video_submit_and_poll env tok cfg prompt stream k s).2).db.stats = s.db.stats
    ∧ ((video_submit_and_poll env tok cfg prompt stream k s).2).db.tokens = s.db.tokens
    ∧ ((video_submit_and_poll env tok cfg prompt stream k s).2).db.logs = s.db.logs
    ∧ ((video_submit_and_poll env tok cfg prompt stream k s).2).db.threshold = s.db.threshold
    ∧ ((video_submit_and_poll env tok cfg prompt stream k s).2).gate = s.gate
    ∧ ∃ l, ((video_submit_and_poll env tok cfg prompt stream k s).2).evs
          = s.evs ++ [Event.submitVideo k] ++ l
        ∧ ∀ e ∈ l, is_release e = false ∧ is_submit e = false := by
  unfold video_submit_and_poll
  cases hsub : env.submitVideo k with
  | error e =>
    simp only [hsub]
    exact ⟨by simp, by simp, by simp, by simp, by simp, [], by simp, by simp⟩
  | ok operations =>
    simp only [hsub]
    cases hhd : operations.head? with
    | none =>
      simp only [hhd]
      exact ⟨by simp, by simp, by simp, by simp, by simp, [], by simp, by simp⟩
    | some op =>
      simp only [hhd]
      have hpoll : ∀ s1 : St,
          s1.db.stats = s.db.stats → s1.db.tokens = s.db.tokens → s1.db.logs = s.db.logs →
          s1.db.threshold = s.db.threshold → s1.gate = s.gate →
          s1.evs = s.evs ++ [Event.submitVideo k] →
          ((poll_video_result env stream s1).2).db.stats = s.db.stats
          ∧ ((poll_video_result env stream s1).2).db.tokens = s.db.tokens
          ∧ ((poll_video_result env stream s1).2).db.logs = s.db.logs
          ∧ ((poll_video_result env stream s1).2).db.threshold = s.db.threshold
          ∧ ((poll_video_result env stream s1).2).gate = s.gate
          ∧ ∃ l, ((poll_video_result env stream s1).2).evs
                = s.evs ++ [Event.submitVideo k] ++ l
              ∧ ∀ e ∈ l, is_release e = false ∧ is_submit e = false := by
        intro s1 h1 h2 h3 h4 h5 h6
        obtain ⟨p1, p2, p3, p4, p5, l, p6, p7, -, -, -⟩ :=
          poll_go_frame env stream env.max_poll_attempts 0 s1
        exact ⟨p1.trans h1, p2.trans h2, p3.trans h3, p4.trans h4, p5.trans h5,
          l, by rw [poll_video_result, p6, h6], p7⟩
      apply hpoll <;> simp [db_create_task]

/-- The video dispatch body: preserves token rows, statistics, logs,
threshold and the gate, and never emits a release event. -/
theorem video_body_frame (env : Env) (tok : Token) (cfg : MCfg) (prompt : String)
    (images : List Nat) (stream : Bool) (s : St) :
    ((video_body env tok cfg prompt images stream s).2).db.stats = s.db.stats
    ∧ ((video_body env tok cfg prompt images stream s).2).db.tokens = s.db.tokens
    ∧ ((video_body env tok cfg prompt images stream s).2).db.logs = s.db.logs
    ∧ ((video_body env tok cfg prompt images stream s).2).db.threshold = s.db.threshold
    ∧ ((video_body env tok cfg prompt images stream s).2).gate = s.gate
    ∧ ∃ l, ((video_body env tok cfg prompt images stream s).2).evs = s.evs ++ l
        ∧ ∀ e ∈ l, is_release e = false := by
  have hvsp : ∀ (k : SubmitKind) (s1 : St),
      s1.db = s.db → s1.gate = s.gate → (∃ l0, s1.evs = s.evs ++ l0 ∧ ∀ e ∈ l0, is_release e = false) →
      ((video_submit_and_poll env tok cfg prompt stream k s1).2).db.stats = s.db.stats
      ∧ ((video_submit_and_poll env tok cfg prompt stream k s1).2).db.tokens = s.db.tokens
      ∧ ((video_submit_and_poll env tok cfg prompt stream k s1).2).db.logs = s.db.logs
      ∧ ((video_submit_and_poll env tok cfg prompt stream k s1).2).db.threshold = s.db.threshold
      ∧ ((video_submit_and_poll env tok cfg prompt stream k s1).2).gate = s.gate
      ∧ ∃ l, ((video_submit_and_poll env tok cfg prompt stream k s1).2).evs = s.evs ++ l
          ∧ ∀ e ∈ l, is_release e = false := by
    intro k s1 hdb hgate ⟨l0, hevs, hl0⟩
    obtain ⟨v1, v2, v3, v4, v5, l, v6, v7⟩ := video_submit_and_poll_frame env tok cfg prompt stream k s1
    refine ⟨by rw [v1, hdb], by rw [v2, hdb], by rw [v3, hdb], by rw [v4, hdb],
      by rw [v5, hgate], l0 ++ [Event.submitVideo k] ++ l, ?_, ?_⟩
    · rw [v6, hevs]
      simp [List.append_assoc]
    · intro e he
      rcases List.mem_append.mp he with hm | hm
      · rcases List.mem_append.mp hm with hm2 | hm2
        · exact hl0 e hm2
        · rcases List.mem_cons.mp hm2 with rfl | hm3
          · rfl
          · cases hm3
      · exact (v7 e hm).1
  unfold video_body
  by_cases ht2v : (cfg.video_type == "t2v") = true
  · rw [if_pos ht2v]
    exact hvsp .text _ (by simp) (by simp) ⟨[], by simp, by simp⟩
  · rw [if_neg ht2v]
    by_cases hi2v : (cfg.video_type == "i2v") = true
    · rw [if_pos hi2v]
      by_cases hcnt : (images.length < cfg.min_images || decide (cfg.max_images.getD 0 < images.length)) = true
      · rw [if_pos hcnt]
        exact ⟨by simp, by simp, by simp, by simp, by simp, [], by simp, by simp⟩
      · rw [if_neg hcnt]
        match images with
        | [] => exact hvsp .text _ (by simp) (by simp) ⟨[], by simp, by simp⟩
        | [i1] =>
          cases hu : env.uploadImage i1 with
          | error e =>
            simp only [hu]
            exact ⟨by simp, by simp, by simp, by simp, by simp, [.uploadImage i1], by simp,
              by simp [is_release]⟩
          | ok start_id =>
            simp only [hu]
            exact hvsp (.startImage start_id) _ (by simp) (by simp)
              ⟨[.uploadImage i1], by simp, by simp [is_release]⟩
        | [i1, i2] =>
          cases hu1 : env.uploadImage i1 with
          | error e =>
            simp only [hu1]
            exact ⟨by simp, by simp, by simp, by simp, by simp, [.uploadImage i1], by simp,
              by simp [is_release]⟩
          | ok start_id =>
            simp only [hu1]
            cases hu2 : env.uploadImage i2 with
            | error e =>
              simp only [hu2]
              exact ⟨by simp, by simp, by simp, by simp, by simp,
                [.uploadImage i1, .uploadImage i2], by simp, by simp [is_release]⟩
            | ok end_id =>
              simp only [hu2]
              exact hvsp (.startEnd start_id end_id) _ (by simp) (by simp)
                ⟨[.uploadImage i1, .uploadImage i2], by simp, by simp [is_release]⟩
        | i1 :: i2 :: i3 :: rest =>
          exact hvsp .text _ (by simp) (by simp) ⟨[], by simp, by simp⟩
    · rw [if_neg hi2v]
      by_cases hr2v : (cfg.video_type == "r2v") = true
      · rw [if_pos hr2v]
        by_cases hemp : images.isEmpty = true
        · rw [if_pos hemp]
          exact hvsp .text _ (by simp) (by simp) ⟨[], by simp, by simp⟩
        · rw [if_neg hemp]
          obtain ⟨u1, u2, lu, u3, u4⟩ := upload_images_loop_frame env false images.length images 0
            (sayIf stream (.chunk ("Uploading " ++ toString images.length ++ " reference images...\n")) s)
          cases hrec : upload_images_loop env false images.length images 0
            (sayIf stream (.chunk ("Uploading " ++ toString images.length ++ " reference images...\n")) s) with
          | mk r s2 =>
            rw [hrec] at u1 u2 u3
            simp only [sayIf_db, sayIf_gate, sayIf_evs] at u1 u2 u3
            cases r with
            | exc e =>
              refine ⟨by simp [hrec, u1], by simp [hrec, u1], by simp [hrec, u1],
                by simp [hrec, u1], by simp [hrec, u2], lu, by simp [hrec, u3], ?_⟩
              intro e2 he2
              obtain ⟨i, rfl⟩ := u4 e2 he2
              rfl
            | ok mids =>
              simp only [hrec]
              refine hvsp (.refImages mids) s2 u1 u2 ⟨lu, u3, ?_⟩
              intro e2 he2
              obtain ⟨i, rfl⟩ := u4 e2 he2
              rfl
      · rw [if_neg hr2v]
        exact hvsp .text _ (by simp) (by simp) ⟨[], by simp, by simp⟩

/-! ### C5: admission-slot release discipline -/

def count_rel_img (tid : Nat) (l : List Event) : Nat :=
  l.countP (fun e => e == Event.releaseImg tid)

def count_rel_vid (tid : Nat) (l : List Event) : Nat :=
  l.countP (fun e => e == Event.releaseVid tid)

theorem gate_try_acquire_spec (g : Nat → Int) (tid : Nat) (limit : Int) :
    ((gate_try_acquire g tid limit).1 = true →
      (gate_try_acquire g tid limit).2 tid = g tid + 1)
    ∧ ((gate_try_acquire g tid limit).1 = false → (gate_try_acquire g tid limit).2 = g) := by
  by_cases h1 : limit < 0
  · constructor
    · intro
      simp [gate_try_acquire, h1]
    · intro hf
      simp [gate_try_acquire, h1] at hf
  · by_cases h2 : g tid + 1 ≤ limit
    · constructor
      · intro
        simp [gate_try_acquire, h1, h2]
      · intro hf
        simp [gate_try_acquire, h1, h2] at hf
    · constructor
      · intro ht
        simp [gate_try_acquire, h1, h2] at ht
      · intro
        simp [gate_try_acquire, h1, h2]

theorem count_rel_img_zero (tid : Nat) (l : List Event)
    (h : ∀ e ∈ l, is_release e = false) : count_rel_img tid l = 0 := by
  rw [count_rel_img, List.countP_eq_zero]
  intro e he hc
  have he2 : e = Event.releaseImg tid := by simpa using hc
  subst he2
  cases h _ he

theorem count_rel_vid_zero (tid : Nat) (l : List Event)
    (h : ∀ e ∈ l, is_release e = false) : count_rel_vid tid l = 0 := by
  rw [count_rel_vid, List.countP_eq_zero]
  intro e he hc
  have he2 : e = Event.releaseVid tid := by simpa using hc
  subst he2
  cases h _ he

/-- C5 (confirmed; the gate itself is modelled from the spec): in both
dispatch paths, a successful slot acquisition is paired with exactly
one matching release on every exit (normal completion, in-band error
return or exception) and the per-account counter of that class returns
to its pre-call value; a rejected acquisition yields an in-band error
and no release; the counters never go below zero. -/
theorem c5_theorem (env : Env) (tok : Token) (cfg : MCfg) (prompt : String)
    (images : List Nat) (stream : Bool) (s : St)
    (hgi : 0 ≤ s.gate.image tok.id) (hgv : 0 ≤ s.gate.video tok.id) :
    (((gate_try_acquire s.gate.image tok.id tok.image_concurrency).1 = true →
        ∃ l, ((handle_image_generation env tok images stream s).2).evs = s.evs ++ l
          ∧ count_rel_img tok.id l = 1 ∧ count_rel_vid tok.id l = 0
          ∧ ((handle_image_generation env tok images stream s).2).gate.image tok.id
              = s.gate.image tok.id)
      ∧ ((gate_try_acquire s.gate.image tok.id tok.image_concurrency).1 = false →
          ((handle_image_generation env tok images stream s).2).gate = s.gate
          ∧ ((handle_image_generation env tok images stream s).2).evs
              = s.evs ++ [.acquireImg tok.id false]
          ∧ ((handle_image_generation env tok images stream s).2).out
              = s.out ++ [.err "Image concurrency limit reached"])
      ∧ 0 ≤ ((handle_image_generation env tok images stream s).2).gate.image tok.id)
    ∧ (((gate_try_acquire s.gate.video tok.id tok.video_concurrency).1 = true →
        ∃ l, ((handle_video_generation env tok cfg prompt images stream s).2).evs = s.evs ++ l
          ∧ count_rel_vid tok.id l = 1 ∧ count_rel_img tok.id l = 0
          ∧ ((handle_video_generation env tok cfg prompt images stream s).2).gate.video tok.id
              = s.gate.video tok.id)
      ∧ ((gate_try_acquire s.gate.video tok.id tok.video_concurrency).1 = false →
          ((handle_video_generation env tok cfg prompt images stream s).2).gate = s.gate
          ∧ ((handle_video_generation env tok cfg prompt images stream s).2).evs
              = s.evs ++ [.acquireVid tok.id false]
          ∧ ((handle_video_generation env tok cfg prompt images stream s).2).out
              = s.out ++ [.err "Video concurrency limit reached"])
      ∧ 0 ≤ ((handle_video_generation env tok cfg prompt images stream s).2).gate.video tok.id) := by
  constructor
  · by_cases ha : (gate_try_acquire s.gate.image tok.id tok.image_concurrency).1 = true
    · have hinc := (gate_try_acquire_spec s.gate.image tok.id tok.image_concurrency).1 ha
      have hmain : ∃ l, ((handle_image_generation env tok images stream s).2).evs = s.evs ++ l
          ∧ count_rel_img tok.id l = 1 ∧ count_rel_vid tok.id l = 0
          ∧ ((handle_image_generation env tok images stream s).2).gate.image tok.id
              = s.gate.image tok.id := by
        unfold handle_image_generation
        rw [if_neg (by simp [ha])]
        obtain ⟨b1, b2, lb, b3, b4⟩ := image_body_frame env images stream
          (emit (.acquireImg tok.id ((gate_try_acquire s.gate.image tok.id tok.image_concurrency)).1)
            { s with gate := { s.gate with
                image := (gate_try_acquire s.gate.image tok.id tok.image_concurrency).2 } })
        cases hrec : image_body env images stream
          (emit (.acquireImg tok.id ((gate_try_acquire s.gate.image tok.id tok.image_concurrency)).1)
            { s with gate := { s.gate with
                image := (gate_try_acquire s.gate.image tok.id tok.image_concurrency).2 } }) with
        | mk r s2 =>
          rw [hrec] at b2 b3
          simp only [emit_gate, emit_evs] at b2 b3
          refine ⟨[.acquireImg tok.id (gate_try_acquire s.gate.image tok.id tok.image_concurrency).1]
            ++ lb ++ [.releaseImg tok.id], ?_, ?_, ?_, ?_⟩
          · simp [hrec, b3, List.append_assoc]
          · have hz : count_rel_img tok.id lb = 0 := count_rel_img_zero _ _ (fun e he => (b4 e he).1)
            rw [count_rel_img] at hz ⊢
            simp [List.countP_append, List.countP_cons, hz, ha, count_rel_img]
          · have hz : count_rel_vid tok.id lb = 0 := count_rel_vid_zero _ _ (fun e he => (b4 e he).1)
            rw [count_rel_vid] at hz ⊢
            simp [List.countP_append, List.countP_cons, hz]
          · simp only [hrec]
            simp only [emit_gate]
            have : s2.gate.image = (gate_try_acquire s.gate.image tok.id tok.image_concurrency).2 := by
              rw [b2]
            simp [gate_release, this, hinc]
            omega
      refine ⟨fun _ => hmain, fun hf => absurd ha (by simp [hf]), ?_⟩
      obtain ⟨l, -, -, -, h4⟩ := hmain
      rw [h4]
      exact hgi
    · have hflat := (gate_try_acquire_spec s.gate.image tok.id tok.image_concurrency).2
        (by revert ha; cases (gate_try_acquire s.gate.image tok.id tok.image_concurrency).1 <;> simp)
      have hrej : ((handle_image_generation env tok images stream s).2).gate = s.gate
          ∧ ((handle_image_generation env tok images stream s).2).evs
              = s.evs ++ [.acquireImg tok.id false]
          ∧ ((handle_image_generation env tok images stream s).2).out
              = s.out ++ [.err "Image concurrency limit reached"] := by
        have hfa : (gate_try_acquire s.gate.image tok.id tok.image_concurrency).1 = false := by
          revert ha
          cases (gate_try_acquire s.gate.image tok.id tok.image_concurrency).1 <;> simp
        unfold handle_image_generation
        rw [if_pos (by simp [hfa])]
        refine ⟨?_, by simp [hfa, hflat], by simp⟩
        simp [hflat]
      exact ⟨fun h => absurd h ha, fun _ => hrej, by rw [hrej.1]; exact hgi⟩
  · by_cases ha : (gate_try_acquire s.gate.video tok.id tok.video_concurrency).1 = true
    · have hinc := (gate_try_acquire_spec s.gate.video tok.id tok.video_concurrency).1 ha
      have hmain : ∃ l, ((handle_video_generation env tok cfg prompt images stream s).2).evs = s.evs ++ l
          ∧ count_rel_vid tok.id l = 1 ∧ count_rel_img tok.id l = 0
          ∧ ((handle_video_generation env tok cfg prompt images stream s).2).gate.video tok.id
              = s.gate.video tok.id := by
        unfold handle_video_generation
        rw [if_neg (by simp [ha])]
        obtain ⟨-, -, -, -, b2, lb, b3, b4⟩ := video_body_frame env tok cfg prompt images stream
          (emit (.acquireVid tok.id ((gate_try_acquire s.gate.video tok.id tok.video_concurrency)).1)
            { s with gate := { s.gate with
                video := (gate_try_acquire s.gate.video tok.id tok.video_concurrency).2 } })
        cases hrec : video_body env tok cfg prompt images stream
          (emit (.acquireVid tok.id ((gate_try_acquire s.gate.video tok.id tok.video_concurrency)).1)
            { s with gate := { s.gate with
                video := (gate_try_acquire s.gate.video tok.id tok.video_concurrency).2 } }) with
        | mk r s2 =>
          rw [hrec] at b2 b3
          simp only [emit_gate, emit_evs] at b2 b3
          refine ⟨[.acquireVid tok.id (gate_try_acquire s.gate.video tok.id tok.video_concurrency).1]
            ++ lb ++ [.releaseVid tok.id], ?_, ?_, ?_, ?_⟩
          · simp [hrec, b3, List.append_assoc]
          · have hz : count_rel_vid tok.id lb = 0 := count_rel_vid_zero _ _ b4
            rw [count_rel_vid] at hz ⊢
            simp [List.countP_append, List.countP_cons, hz, ha, count_rel_vid]
          · have hz : count_rel_img tok.id lb = 0 := count_rel_img_zero _ _ b4
            rw [count_rel_img] at hz ⊢
            simp [List.countP_append, List.countP_cons, hz]
          · simp only [hrec]
            simp only [emit_gate]
            have : s2.gate.video = (gate_try_acquire s.gate.video tok.id tok.video_concurrency).2 := by
              rw [b2]
            simp [gate_release, this, hinc]
            omega
      refine ⟨fun _ => hmain, fun hf => absurd ha (by simp [hf]), ?_⟩
      obtain ⟨l, -, -, -, h4⟩ := hmain
      rw [h4]
      exact hgv
    · have hfa : (gate_try_acquire s.gate.video tok.id tok.video_concurrency).1 = false := by
        revert ha
        cases (gate_try_acquire s.gate.video tok.id tok.video_concurrency).1 <;> simp
      have hflat := (gate_try_acquire_spec s.gate.video tok.id tok.video_concurrency).2 hfa
      have hrej : ((handle_video_generation env tok cfg prompt images stream s).2).gate = s.gate
          ∧ ((handle_video_generation env tok cfg prompt images stream s).2).evs
              = s.evs ++ [.acquireVid tok.id false]
          ∧ ((handle_video_generation env tok cfg prompt images stream s).2).out
              = s.out ++ [.err "Video concurrency limit reached"] := by
        unfold handle_video_generation
        rw [if_pos (by simp [hfa])]
        refine ⟨?_, by simp [hfa, hflat], by simp⟩
        simp [hflat]
      exact ⟨fun h => absurd h ha, fun _ => hrej, by rw [hrej.1]; exact hgv⟩

/-- Witness for `c5_theorem`: with a free slot, the image dispatch of a
concrete run acquires and releases exactly once and restores the
counter. -/
theorem c5_theorem_witness :
    ∃ l, ((handle_image_generation envC1 tokC1 [] true
        { db := dbC1, gate := { image := fun _ => 0, video := fun _ => 0 }, evs := [], out := [] }).2).evs
      = [] ++ l
      ∧ count_rel_img 1 l = 1 ∧ count_rel_vid 1 l = 0
      ∧ ((handle_image_generation envC1 tokC1 [] true
          { db := dbC1, gate := { image := fun _ => 0, video := fun _ => 0 }, evs := [], out := [] }).2).gate.image 1
        = 0 :=
  ((c5_theorem envC1 tokC1 { mtype := "image", ar := "x" } "p" [] true
      { db := dbC1, gate := { image := fun _ => 0, video := fun _ => 0 }, evs := [], out := [] }
      (by decide) (by decide)).1.1 (by decide))

/-! ### C8: image-to-video image-count validation -/

/-- With an admitted slot, the video wrapper is the body run on the
post-acquire state, with the release event appended at the end. -/
theorem handle_video_generation_split (env : Env) (tok : Token) (cfg : MCfg)
    (prompt : String) (images : List Nat) (stream : Bool) (s : St)
    (ha : (gate_try_acquire s.gate.video tok.id tok.video_concurrency).1 = true) :
    ((handle_video_generation env tok cfg prompt images stream s).2).evs
      = ((video_body env tok cfg prompt images stream
          (emit (.acquireVid tok.id (gate_try_acquire s.gate.video tok.id tok.video_concurrency).1)
            { s with gate := { s.gate with
                video := (gate_try_acquire s.gate.video tok.id tok.video_concurrency).2 } })).2).evs
        ++ [Event.releaseVid tok.id]
    ∧ ((handle_video_generation env tok cfg prompt images stream s).2).out
      = ((video_body env tok cfg prompt images stream
          (emit (.acquireVid tok.id (gate_try_acquire s.gate.video tok.id tok.video_concurrency).1)
            { s with gate := { s.gate with
                video := (gate_try_acquire s.gate.video tok.id tok.video_concurrency).2 } })).2).out
    ∧ ((handle_video_generation env tok cfg prompt images stream s).2).gate.video tok.id
      = gate_release
          ((video_body env tok cfg prompt images stream
            (emit (.acquireVid tok.id (gate_try_acquire s.gate.video tok.id tok.video_concurrency).1)
              { s with gate := { s.gate with
                  video := (gate_try_acquire s.gate.video tok.id tok.video_concurrency).2 } })).2).gate.video
          tok.id tok.id := by
  unfold handle_video_generation
  rw [if_neg (by simp [ha])]
  cases hrec : video_body env tok cfg prompt images stream
    (emit (.acquireVid tok.id (gate_try_acquire s.gate.video tok.id tok.video_concurrency).1)
      { s with gate := { s.gate with
          video := (gate_try_acquire s.gate.video tok.id tok.video_concurrency).2 } }) with
  | mk r s2 => simp [hrec]

/-- Submission-call extraction: after a state whose new events carry no
submission, `video_submit_and_poll` contributes exactly one submission
event, of its kind. -/
theorem video_submit_filter (env : Env) (tok : Token) (cfg : MCfg) (prompt : String)
    (stream : Bool) (k : SubmitKind) (s0 s1 : St) (l0 : List Event)
    (h1 : s1.evs = s0.evs ++ l0) (h2 : l0.filter is_submit = []) :
    ∃ l, ((video_submit_and_poll env tok cfg prompt stream k s1).2).evs = s0.evs ++ l
      ∧ l.filter is_submit = [Event.submitVideo k] := by
  obtain ⟨-, -, -, -, -, l, v6, v7⟩ := video_submit_and_poll_frame env tok cfg prompt stream k s1
  refine ⟨l0 ++ [Event.submitVideo k] ++ l, ?_, ?_⟩
  · rw [v6, h1]
    simp [List.append_assoc]
  · have hl : l.filter is_submit = [] := by
      rw [List.filter_eq_nil_iff]
      intro e he
      simp [(v7 e he).2]
    rw [List.filter_append, List.filter_append, h2, hl]
    simp [is_submit]

/-- C8 (confirmed): for an image-to-video model (accepted range 1-2)
whose admission slot is granted: exactly 1 supplied image leads to the
start-frame-only submission call and no other; exactly 2 images lead to
the start-plus-end-frame call and no other; any other count yields an
in-band error naming the range 1-2, no submission call at all, and the
admission counter is back at its pre-call value after the dispatch. -/
theorem c8_theorem (env : Env) (tok : Token) (cfg : MCfg) (prompt : String)
    (images : List Nat) (stream : Bool) (s : St)
    (hi2v : cfg.video_type = "i2v") (hmin : cfg.min_images = 1)
    (hmax : cfg.max_images = some 2)
    (hacq : (gate_try_acquire s.gate.video tok.id tok.video_concurrency).1 = true)
    (hg0 : 0 ≤ s.gate.video tok.id) :
    (∀ i1 m, images = [i1] → env.uploadImage i1 = .ok m →
      ∃ l, ((handle_video_generation env tok cfg prompt images stream s).2).evs = s.evs ++ l
        ∧ l.filter is_submit = [Event.submitVideo (.startImage m)])
    ∧ (∀ i1 i2 m1 m2, images = [i1, i2] →
        env.uploadImage i1 = .ok m1 → env.uploadImage i2 = .ok m2 →
      ∃ l, ((handle_video_generation env tok cfg prompt images stream s).2).evs = s.evs ++ l
        ∧ l.filter is_submit = [Event.submitVideo (.startEnd m1 m2)])
    ∧ (images.length = 0 ∨ 3 ≤ images.length →
      ∃ l, ((handle_video_generation env tok cfg prompt images stream s).2).evs = s.evs ++ l
        ∧ l.filter is_submit = []
        ∧ ((handle_video_generation env tok cfg prompt images stream s).2).out
            = s.out ++ (if stream then
                [Resp.chunk ("❌ I2V model needs 1-2 images, " ++ toString images.length
                  ++ " provided" ++ "\n"),
                 Resp.err ("❌ I2V model needs 1-2 images, " ++ toString images.length
                  ++ " provided")]
              else [Resp.err ("❌ I2V model needs 1-2 images, " ++ toString images.length
                  ++ " provided")])
        ∧ ((handle_video_generation env tok cfg prompt images stream s).2).gate.video tok.id
            = s.gate.video tok.id) := by
  obtain ⟨hevs, hout, hgate⟩ :=
    handle_video_generation_split env tok cfg prompt images stream s hacq
  have hinc := (gate_try_acquire_spec s.gate.video tok.id tok.video_concurrency).1 hacq
  refine ⟨?_, ?_, ?_⟩
  · intro i1 m himg hup
    subst himg
    rw [hevs]
    unfold video_body
    rw [hi2v, if_neg (by decide), if_pos (by decide), hmin, hmax,
      if_neg (by simp)]
    dsimp only
    rw [hup]
    obtain ⟨l, hl1, hl2⟩ := video_submit_filter env tok cfg prompt stream (.startImage m) s
      (emit (.uploadImage i1) (sayIf stream (.chunk "Uploading start frame image...\n")
        (emit (.acquireVid tok.id (gate_try_acquire s.gate.video tok.id tok.video_concurrency).1)
          { s with gate := { s.gate with
              video := (gate_try_acquire s.gate.video tok.id tok.video_concurrency).2 } })))
      [.acquireVid tok.id (gate_try_acquire s.gate.video tok.id tok.video_concurrency).1,
        .uploadImage i1]
      (by simp) (by simp [is_submit])
    refine ⟨l ++ [Event.releaseVid tok.id], ?_, ?_⟩
    · rw [hl1]
      simp [List.append_assoc]
    · rw [List.filter_append, hl2]
      simp [is_submit]
  · intro i1 i2 m1 m2 himg hu1 hu2
    subst himg
    rw [hevs]
    unfold video_body
    rw [hi2v, if_neg (by decide), if_pos (by decide), hmin, hmax,
      if_neg (by simp)]
    dsimp only
    rw [hu1, hu2]
    obtain ⟨l, hl1, hl2⟩ := video_submit_filter env tok cfg prompt stream (.startEnd m1 m2) s
      (emit (.uploadImage i2) (emit (.uploadImage i1)
        (sayIf stream (.chunk "Uploading start and end frame images...\n")
          (emit (.acquireVid tok.id (gate_try_acquire s.gate.video tok.id tok.video_concurrency).1)
            { s with gate := { s.gate with
                video := (gate_try_acquire s.gate.video tok.id tok.video_concurrency).2 } }))))
      [.acquireVid tok.id (gate_try_acquire s.gate.video tok.id tok.video_concurrency).1,
        .uploadImage i1, .uploadImage i2]
      (by simp) (by simp [is_submit])
    refine ⟨l ++ [Event.releaseVid tok.id], ?_, ?_⟩
    · rw [hl1]
      simp [List.append_assoc]
    · rw [List.filter_append, hl2]
      simp [is_submit]
  · intro hcnt
    have hbad : (decide (images.length < cfg.min_images)
        || decide (cfg.max_images.getD 0 < images.length)) = true := by
      rw [hmin, hmax]
      rcases hcnt with h0 | h3
      · simp [h0]
      · simp only [Bool.or_eq_true, decide_eq_true_eq]
        right
        simpa using by omega
    have hmsg : ("❌ I2V model needs " ++ toString cfg.min_images ++ "-"
          ++ toString (cfg.max_images.getD 0) ++ " images, " ++ toString images.length
          ++ " provided")
        = ("❌ I2V model needs 1-2 images, " ++ toString images.length ++ " provided") := by
      rw [hmin, hmax]
      rfl
    rw [hevs, hout]
    unfold video_body
    rw [hi2v, if_neg (by decide), if_pos (by decide), if_pos hbad]
    refine ⟨[.acquireVid tok.id (gate_try_acquire s.gate.video tok.id tok.video_concurrency).1,
      .releaseVid tok.id], by simp, by simp [is_submit], ?_, ?_⟩
    · rw [hmsg]
      cases stream <;> simp [sayIf, say]
    · rw [hgate]
      unfold video_body
      rw [hi2v, if_neg (by decide), if_pos (by decide), if_pos hbad]
      simp only [say_gate, sayIf_gate, emit_gate]
      simp [gate_release, hinc]
      omega

def envC8 : Env :=
  { envC1 with
    submitVideo := fun _ => .ok [{ name := "op1", sceneId := some "sc" }],
    checkStatus := fun _ => .error "transient" }

def stC8 : St :=
  { db := dbC1, gate := { image := fun _ => 0, video := fun _ => 0 }, evs := [], out := [] }

/-- Witness for `c8_theorem`: one supplied image on a concrete i2v
model triggers the start-frame-only submission. -/
theorem c8_theorem_witness :
    ∃ l, ((handle_video_generation envC8 tokC1
        ((MODEL_CONFIG "veo_3_1_i2v_s_fast_fl_landscape").getD { mtype := "", ar := "" })
        "p" [7] true stC8).2).evs = stC8.evs ++ l
      ∧ l.filter is_submit = [Event.submitVideo (.startImage "m")] :=
  (c8_theorem envC8 tokC1
      ((MODEL_CONFIG "veo_3_1_i2v_s_fast_fl_landscape").getD { mtype := "", ar := "" })
      "p" [7] true stC8 rfl rfl rfl (by decide) (by decide)).1 7 "m" rfl rfl

/-! ### C6: bounded polling -/

@[simp] theorem sayIf_out (b : Bool) (r : Resp) (s : St) :
    (sayIf b r s).out = s.out ++ (if b then [r] else []) := by
  cases b <;> simp [sayIf, say]

/-- A poll outcome that neither succeeds nor carries an error status:
the loop continues past it. -/
def poll_nonterminal (o : Except String (List OpSt)) : Bool :=
  match o with
  | .error _ => true
  | .ok checked =>
    match checked.head? with
    | none => true
    | some op =>
      match op.status with
      | none => true
      | some status =>
        !(status == "MEDIA_GENERATION_STATUS_SUCCESSFUL")
          && !(status.startsWith "MEDIA_GENERATION_STATUS_ERROR")

/-- Exhaustion: when every status check is non-terminal, the loop ends
in the timeout error naming the configured attempt count. -/
theorem poll_go_exhaust (env : Env) (stream : Bool)
    (hall : ∀ k, poll_nonterminal (env.checkStatus k) = true) :
    ∀ fuel attempt s, ∃ l, ((poll_go env stream fuel attempt s).2).out
      = s.out ++ (l ++ [Resp.err (poll_timeout_msg env.max_poll_attempts)]) := by
  intro fuel
  induction fuel with
  | zero =>
    intro attempt s
    exact ⟨[], by simp [poll_go]⟩
  | succ fuel ih =>
    intro attempt s
    have hnt := hall attempt
    simp only [poll_go]
    cases hchk : env.checkStatus attempt with
    | error msg =>
      obtain ⟨l, hl⟩ := ih (attempt + 1)
        (emit (.checkStatus attempt) (emit (.sleep env.poll_interval) s))
      exact ⟨l, by simpa using hl⟩
    | ok checked =>
      rw [hchk] at hnt
      cases hhd : checked.head? with
      | none =>
        simp only [hhd]
        obtain ⟨l, hl⟩ := ih (attempt + 1)
          (emit (.checkStatus attempt) (emit (.sleep env.poll_interval) s))
        exact ⟨l, by simpa using hl⟩
      | some op =>
        simp only [hhd]
        rw [poll_nonterminal] at hnt
        simp only [hhd] at hnt
        cases hst : op.status with
        | none =>
          simp only [hst]
          obtain ⟨l, hl⟩ := ih (attempt + 1)
            (sayIf (stream && attempt % 7 == 0)
              (.chunk ("Generation progress: "
                ++ toString (min (attempt * 100 / env.max_poll_attempts) 95) ++ "%\n"))
              (emit (.checkStatus attempt) (emit (.sleep env.poll_interval) s)))
          refine ⟨(if stream && attempt % 7 == 0 then
            [Resp.chunk ("Generation progress: "
              ++ toString (min (attempt * 100 / env.max_poll_attempts) 95) ++ "%\n")] else []) ++ l, ?_⟩
          rw [hl]
          simp [List.append_assoc]
        | some status =>
          simp only [hst]
          rw [hst] at hnt
          simp only [Bool.and_eq_true, Bool.not_eq_true'] at hnt
          rw [if_neg (by simp [hnt.1]), if_neg (by simp [hnt.2])]
          obtain ⟨l, hl⟩ := ih (attempt + 1)
            (sayIf (stream && attempt % 7 == 0)
              (.chunk ("Generation progress: "
                ++ toString (min (attempt * 100 / env.max_poll_attempts) 95) ++ "%\n"))
              (emit (.checkStatus attempt) (emit (.sleep env.poll_interval) s)))
          refine ⟨(if stream && attempt % 7 == 0 then
            [Resp.chunk ("Generation progress: "
              ++ toString (min (attempt * 100 / env.max_poll_attempts) 95) ++ "%\n")] else []) ++ l, ?_⟩
          rw [hl]
          simp [List.append_assoc]

/-- C6 (confirmed): the polling loop performs at most
`max_poll_attempts` status checks, sleeping exactly `poll_interval`
once per check; an exception of an individual check is swallowed,
consuming exactly one attempt of the fixed budget; and when every
check is non-terminal, the loop ends with the timeout error naming the
number of attempts polled.  Termination itself is structural: the loop
is a recursion on the remaining attempt budget. -/
theorem c6_theorem (env : Env) (stream : Bool) (s : St) :
    (∃ l, ((poll_video_result env stream s).2).evs = s.evs ++ l
      ∧ l.countP is_check_ev ≤ env.max_poll_attempts
      ∧ l.countP (fun e => e == Event.sleep env.poll_interval) = l.countP is_check_ev)
    ∧ (∀ fuel attempt msg, env.checkStatus attempt = .error msg →
        poll_go env stream (fuel + 1) attempt s
          = poll_go env stream fuel (attempt + 1)
              (emit (.checkStatus attempt) (emit (.sleep env.poll_interval) s)))
    ∧ ((∀ k, poll_nonterminal (env.checkStatus k) = true) →
        ∃ l, ((poll_video_result env stream s).2).out
          = s.out ++ (l ++ [Resp.err (poll_timeout_msg env.max_poll_attempts)])) := by
  refine ⟨?_, ?_, ?_⟩
  · obtain ⟨-, -, -, -, -, l, p6, -, p8, p9, p10⟩ :=
      poll_go_frame env stream env.max_poll_attempts 0 s
    exact ⟨l, p6, by omega, p10⟩
  · intro fuel attempt msg h
    conv_lhs => rw [poll_go]
    rw [h]
  · intro hall
    exact poll_go_exhaust env stream hall env.max_poll_attempts 0 s

/-- Witness for `c6_theorem`: with every check raising, the loop times
out with the message naming the attempt budget. -/
theorem c6_theorem_witness :
    ∃ l, ((poll_video_result envC8 true stC8).2).out
      = stC8.out ++ (l ++ [Resp.err (poll_timeout_msg envC8.max_poll_attempts)]) :=
  (c6_theorem envC8 true stC8).2.2 (fun _ => rfl)

/-! ### Statistics/log preservation through the guarded attempt -/

theorem refresh_at_stats_logs (env : Env) (db : DB) (tid : Nat) :
    (refresh_at env db tid).2.1.stats = db.stats
    ∧ (refresh_at env db tid).2.1.logs = db.logs := by
  unfold refresh_at
  cases h : db_get_token db tid with
  | none => exact ⟨rfl, rfl⟩
  | some token =>
    simp only [h]
    cases hst : env.stToAt token.st with
    | error e => exact ⟨rfl, rfl⟩
    | ok p =>
      obtain ⟨a, exp⟩ := p
      dsimp only
      cases hc : env.getCredits a with
      | error e => exact ⟨rfl, rfl⟩
      | ok c => exact ⟨rfl, rfl⟩

theorem is_at_valid_stats_logs (env : Env) (db : DB) (tid : Nat) :
    (is_at_valid env db tid).2.1.stats = db.stats
    ∧ (is_at_valid env db tid).2.1.logs = db.logs := by
  unfold is_at_valid
  cases h : db_get_token db tid with
  | none => exact ⟨rfl, rfl⟩
  | some token =>
    simp only [h]
    by_cases hm : at_missing token = true
    · simp only [hm, if_true]
      exact refresh_at_stats_logs env db tid
    · simp only [hm]
      cases hexp : token.at_expires with
      | none => exact refresh_at_stats_logs env db tid
      | some exp =>
        by_cases hlt : exp - env.now < 3600
        · simp only [if_pos hlt]
          exact refresh_at_stats_logs env db tid
        · simp only [if_neg hlt]
          exact ⟨rfl, rfl⟩

theorem ensure_project_stats_logs (env : Env) (db : DB) (tid : Nat) :
    (ensure_project_exists env db tid).2.1.stats = db.stats
    ∧ (ensure_project_exists env db tid).2.1.logs = db.logs := by
  unfold ensure_project_exists
  cases h : db_get_token db tid with
  | none => exact ⟨rfl, rfl⟩
  | some token =>
    simp only [h]
    cases hp : token.current_project_id with
    | some pid => exact ⟨rfl, rfl⟩
    | none =>
      simp only [hp]
      cases hc : env.createProject token.st with
      | error e => exact ⟨rfl, rfl⟩
      | ok pid => exact ⟨rfl, rfl⟩

theorem handle_image_generation_stats_logs (env : Env) (tok : Token) (images : List Nat)
    (stream : Bool) (s : St) :
    ((handle_image_generation env tok images stream s).2).db.stats = s.db.stats
    ∧ ((handle_image_generation env tok images stream s).2).db.logs = s.db.logs := by
  unfold handle_image_generation
  by_cases ha : (gate_try_acquire s.gate.image tok.id tok.image_concurrency).1 = false
  · rw [if_pos (by simp [ha])]
    exact ⟨rfl, rfl⟩
  · rw [if_neg (by simp [ha])]
    obtain ⟨b1, -, -⟩ := image_body_frame env images stream
      (emit (.acquireImg tok.id (gate_try_acquire s.gate.image tok.id tok.image_concurrency).1)
        { s with gate := { s.gate with
            image := (gate_try_acquire s.gate.image tok.id tok.image_concurrency).2 } })
    cases hrec : image_body env images stream
      (emit (.acquireImg tok.id (gate_try_acquire s.gate.image tok.id tok.image_concurrency).1)
        { s with gate := { s.gate with
            image := (gate_try_acquire s.gate.image tok.id tok.image_concurrency).2 } }) with
    | mk r s2 =>
      rw [hrec] at b1
      simp only [emit_db] at b1
      constructor <;> simp [hrec, b1]

theorem handle_video_generation_stats_logs (env : Env) (tok : Token) (cfg : MCfg)
    (prompt : String) (images : List Nat) (stream : Bool) (s : St) :
    ((handle_video_generation env tok cfg prompt images stream s).2).db.stats = s.db.stats
    ∧ ((handle_video_generation env tok cfg prompt images stream s).2).db.logs = s.db.logs := by
  unfold handle_video_generation
  by_cases ha : (gate_try_acquire s.gate.video tok.id tok.video_concurrency).1 = false
  · rw [if_pos (by simp [ha])]
    exact ⟨rfl, rfl⟩
  · rw [if_neg (by simp [ha])]
    obtain ⟨b1, -, b3, -, -, -⟩ := video_body_frame env tok cfg prompt images stream
      (emit (.acquireVid tok.id (gate_try_acquire s.gate.video tok.id tok.video_concurrency).1)
        { s with gate := { s.gate with
            video := (gate_try_acquire s.gate.video tok.id tok.video_concurrency).2 } })
    cases hrec : video_body env tok cfg prompt images stream
      (emit (.acquireVid tok.id (gate_try_acquire s.gate.video tok.id tok.video_concurrency).1)
        { s with gate := { s.gate with
            video := (gate_try_acquire s.gate.video tok.id tok.video_concurrency).2 } }) with
    | mk r s2 =>
      rw [hrec] at b1 b3
      simp only [emit_db] at b1 b3
      constructor <;> simp [hrec, b1, b3]

theorem generation_attempt_stats_logs (env : Env) (cfg : MCfg) (prompt : String)
    (images : List Nat) (stream : Bool) (tok : Token) (s : St) :
    ((generation_attempt env cfg prompt images stream tok s).2).db.stats = s.db.stats
    ∧ ((generation_attempt env cfg prompt images stream tok s).2).db.logs = s.db.logs := by
  unfold generation_attempt
  simp only [sayIf_db]
  obtain ⟨v1, v2⟩ := is_at_valid_stats_logs env s.db tok.id
  cases hiv : is_at_valid env s.db tok.id with
  | mk b rest =>
    obtain ⟨db1, evs1⟩ := rest
    rw [hiv] at v1 v2
    have v1' : db1.stats = s.db.stats := v1
    have v2' : db1.logs = s.db.logs := v2
    dsimp only
    by_cases hb : b = false
    · rw [if_pos hb]
      constructor
      · simp only [say_db, sayIf_db]
        exact v1'
      · simp only [say_db, sayIf_db]
        exact v2'
    · rw [if_neg hb]
      cases htok2 : db_get_token db1 tok.id with
      | none =>
        simp only [htok2]
        exact ⟨v1', v2'⟩
      | some tok2 =>
        simp only [htok2]
        obtain ⟨p1, p2⟩ := ensure_project_stats_logs env db1 tok2.id
        cases hpr : ensure_project_exists env db1 tok2.id with
        | mk pres prest =>
          obtain ⟨dbp, evsp⟩ := prest
          rw [hpr] at p1 p2
          have p1' : dbp.stats = db1.stats := p1
          have p2' : dbp.logs = db1.logs := p2
          dsimp only
          cases pres with
          | error e =>
            exact ⟨p1'.trans v1', p2'.trans v2'⟩
          | ok pid =>
            dsimp only
            by_cases hty : (cfg.mtype == "image") = true
            · rw [if_pos hty]
              have hdisp : ∀ s2 : St, s2.db.stats = s.db.stats → s2.db.logs = s.db.logs →
                  ((match handle_image_generation env tok2 images stream s2 with
                    | (Res.ok _, s3) => ((Res.ok true : Res Bool), s3)
                    | (Res.exc e2, s3) => ((Res.exc e2 : Res Bool), s3)).2.db.stats = s.db.stats
                  ∧ (match handle_image_generation env tok2 images stream s2 with
                    | (Res.ok _, s3) => ((Res.ok true : Res Bool), s3)
                    | (Res.exc e2, s3) => ((Res.exc e2 : Res Bool), s3)).2.db.logs = s.db.logs) := by
                intro s2 h1 h2
                obtain ⟨i1, i2⟩ := handle_image_generation_stats_logs env tok2 images stream s2
                cases hrec : handle_image_generation env tok2 images stream s2 with
                | mk r s3 =>
                  rw [hrec] at i1 i2
                  have i1' : s3.db.stats = s2.db.stats := i1
                  have i2' : s3.db.logs = s2.db.logs := i2
                  cases r <;> exact ⟨i1'.trans h1, i2'.trans h2⟩
              refine hdisp _ ?_ ?_
              · exact p1'.trans v1'
              · exact p2'.trans v2'
            · rw [if_neg hty]
              have hdisp : ∀ s2 : St, s2.db.stats = s.db.stats → s2.db.logs = s.db.logs →
                  ((match handle_video_generation env tok2 cfg prompt images stream s2 with
                    | (Res.ok _, s3) => ((Res.ok true : Res Bool), s3)
                    | (Res.exc e2, s3) => ((Res.exc e2 : Res Bool), s3)).2.db.stats = s.db.stats
                  ∧ (match handle_video_generation env tok2 cfg prompt images stream s2 with
                    | (Res.ok _, s3) => ((Res.ok true : Res Bool), s3)
                    | (Res.exc e2, s3) => ((Res.exc e2 : Res Bool), s3)).2.db.logs = s.db.logs) := by
                intro s2 h1 h2
                obtain ⟨i1, i2⟩ := handle_video_generation_stats_logs env tok2 cfg prompt images stream s2
                cases hrec : handle_video_generation env tok2 cfg prompt images stream s2 with
                | mk r s3 =>
                  rw [hrec] at i1 i2
                  have i1' : s3.db.stats = s2.db.stats := i1
                  have i2' : s3.db.logs = s2.db.logs := i2
                  cases r <;> exact ⟨i1'.trans h1, i2'.trans h2⟩
              refine hdisp _ ?_ ?_
              · exact p1'.trans v1'
              · exact p2'.trans v2'

/-! ### C9: non-streaming availability probe -/

/-- C9 (confirmed): with streaming not requested and a valid model,
`handle_generation` performs no generation and mutates nothing: the
store and the gate counters are returned unchanged, the only external
interaction is one load-balancer query for an eligible account of the
requested capability, and the only output is one informational
availability message stating whether such an account currently
exists. -/
theorem c9_theorem (env : Env) (model prompt : String) (images : List Nat)
    (cfg : MCfg) (s : St) (hm : MODEL_CONFIG model = some cfg) :
    handle_generation env model prompt images false s =
      { db := s.db, gate := s.gate,
        evs := s.evs ++ [Event.selectToken (cfg.mtype == "image") (cfg.mtype == "video")],
        out := s.out ++ [Resp.availability (
          if (select_token s.db s.gate (cfg.mtype == "image") (cfg.mtype == "video")).isSome then
            if cfg.mtype == "image" then
              "All tokens are available for image generation. Please enable streaming mode to use generation functionality."
            else
              "All tokens are available for video generation. Please enable streaming mode to use generation functionality."
          else
            if cfg.mtype == "image" then "No tokens available for image generation"
            else "No tokens available for video generation")] } := by
  unfold handle_generation
  rw [hm]
  rfl

/-- Witness for `c9_theorem`: a non-streaming request on a concrete
image model over a store with one eligible account yields only the
positive availability message and changes nothing else. -/
theorem c9_theorem_witness :
    handle_generation envC1 "gemini-2.5-flash-image-landscape" "p" [] false stC8 =
      { db := stC8.db, gate := stC8.gate,
        evs := [Event.selectToken true false],
        out := [Resp.availability "All tokens are available for image generation. Please enable streaming mode to use generation functionality."] } := by
  rw [c9_theorem envC1 "gemini-2.5-flash-image-landscape" "p" []
    { mtype := "image", model_name := "GEM_PIX", ar := "IMAGE_ASPECT_RATIO_LANDSCAPE" }
    stC8 rfl]
  rfl

/-! ### C2: immediate 429 ban -/

/-- C2 (confirmed): when the guarded attempt raises an exception whose
message carries the 429 marker, the orchestrator immediately bans the
selected account — the row becomes inactive with the rate-limit ban
reason and the current time as ban timestamp — while the per-account
statistics (in particular the consecutive-error counter, whatever its
current value) are left untouched and the threshold path is never
consulted; the failure log row is appended. -/
theorem c2_theorem (env : Env) (model prompt : String) (images : List Nat)
    (cfg : MCfg) (tok : Token) (s : St) (e : String) (s2 : St)
    (hm : MODEL_CONFIG model = some cfg)
    (hsel : select_token s.db s.gate (cfg.mtype == "image") (cfg.mtype == "video") = some tok)
    (hatt : generation_attempt env cfg prompt images true tok
      (emit (.selectToken (cfg.mtype == "image") (cfg.mtype == "video"))
        (say (.chunk ("✨ " ++ (if cfg.mtype == "video" then "Video" else "Image")
          ++ " generation task started\n")) s)) = (.exc e, s2))
    (h429 : contains429 e = true) :
    (handle_generation env model prompt images true s).db
      = log_request (ban_token_for_429 env.now s2.db tok.id) (some tok.id)
          ("generate_" ++ cfg.mtype) 500
    ∧ (∀ t2, db_get_token s2.db tok.id = some t2 →
        db_get_token (handle_generation env model prompt images true s).db tok.id
          = some { t2 with
                   is_active := false
                   ban_reason := some "429_rate_limit"
                   banned_at := some env.now })
    ∧ (handle_generation env model prompt images true s).db.stats = s.db.stats
    ∧ (handle_generation env model prompt images true s).db.logs
        = s.db.logs
          ++ [{ token_id := some tok.id
                operation := "generate_" ++ cfg.mtype
                status_code := 500 }] := by
  have hstats := generation_attempt_stats_logs env cfg prompt images true tok
    (emit (.selectToken (cfg.mtype == "image") (cfg.mtype == "video"))
      (say (.chunk ("✨ " ++ (if cfg.mtype == "video" then "Video" else "Image")
        ++ " generation task started\n")) s))
  rw [hatt] at hstats
  have hst1 : s2.db.stats = s.db.stats := by simpa using hstats.1
  have hlg1 : s2.db.logs = s.db.logs := by simpa using hstats.2
  have hrun : handle_generation env model prompt images true s =
      { db := log_request (ban_token_for_429 env.now s2.db tok.id) (some tok.id)
          ("generate_" ++ cfg.mtype) 500,
        gate := s2.gate, evs := s2.evs,
        out := (s2.out ++ [Resp.chunk ("❌ " ++ ("Generation failed: " ++ e) ++ "\n")])
          ++ [Resp.err ("Generation failed: " ++ e)] } := by
    unfold handle_generation
    rw [hm]
    dsimp only
    rw [if_neg (by decide)]
    simp only [say_db, say_gate, emit_db, emit_gate]
    rw [hsel]
    dsimp only
    rw [hatt]
    dsimp only
    rw [if_pos h429]
    simp only [say_evs, say_out]
  refine ⟨?_, ?_, ?_, ?_⟩
  · rw [hrun]
  · intro t2 ht2
    rw [hrun]
    show db_get_token (ban_token_for_429 env.now s2.db tok.id) tok.id = _
    unfold ban_token_for_429
    rw [db_get_token_update_self s2.db tok.id (fun t => { t with is_active := false, ban_reason := some "429_rate_limit", banned_at := some env.now }) (fun t => rfl), ht2]
    rfl
  · rw [hrun]
    exact hst1
  · rw [hrun]
    show s2.db.logs ++ _ = _
    rw [hlg1]

def cfgImgL : MCfg :=
  { mtype := "image", model_name := "GEM_PIX", ar := "IMAGE_ASPECT_RATIO_LANDSCAPE" }

def envC2 : Env :=
  { envC1 with
    generateImage := fun _ => .error "HTTP Error 429" }

def sC2 : St :=
  emit (.selectToken (cfgImgL.mtype == "image") (cfgImgL.mtype == "video"))
    (say (.chunk ("✨ " ++ (if cfgImgL.mtype == "video" then "Video" else "Image")
      ++ " generation task started\n")) stC8)

/-- Witness for `c2_theorem`: a concrete run whose generation call
raises an HTTP 429 leaves the account banned with reason and timestamp
while its statistics row is untouched. -/
theorem c2_theorem_witness :
    db_get_token (handle_generation envC2 "gemini-2.5-flash-image-landscape" "p" [] true stC8).db 1
      = some { tokC1 with
               is_active := false
               ban_reason := some "429_rate_limit"
               banned_at := some 0 }
    ∧ (handle_generation envC2 "gemini-2.5-flash-image-landscape" "p" [] true stC8).db.stats
      = stC8.db.stats := by
  have h := c2_theorem envC2 "gemini-2.5-flash-image-landscape" "p" [] cfgImgL tokC1 stC8
    "HTTP Error 429" ((generation_attempt envC2 cfgImgL "p" [] true tokC1 sC2).2)
    rfl rfl rfl rfl
  exact ⟨h.2.1 tokC1 rfl, h.2.2.1⟩

/-! ### C7: success bookkeeping vs. failure classification -/

/-- Full success of a run, read off the responses it yielded: some
final/completion payload (a generated media link) was delivered;
in-band error responses (`Resp.err`) and progress chunks are not a
full success. -/
def full_success (l : List Resp) : Bool :=
  l.any (fun r => match r with
    | .final _ => true
    | .completion _ => true
    | _ => false)

/-- The success bookkeeping of `handle_generation` steps 6-7, read off
the state: success log row appended, usage counter of the used class
bumped, consecutive error counter reset. -/
def c7_bookkept (s fin : St) (tid : Nat) (op : String) (is_video : Bool) : Bool :=
  decide (fin.db.logs = s.db.logs ++ [{ token_id := some tid, operation := op, status_code := 200 }])
  && decide ((fin.db.stats tid).image_count = (s.db.stats tid).image_count + (if is_video then 0 else 1))
  && decide ((fin.db.stats tid).video_count = (s.db.stats tid).video_count + (if is_video then 1 else 0))
  && decide ((fin.db.stats tid).consecutive_error_count = 0)

/-- C7 as stated: the orchestrator performs the success bookkeeping
(usage recorded, consecutive counter reset, success log row) if and
only if the request reached full success. -/
def c7_as_stated (env : Env) (model prompt : String) (images : List Nat)
    (tid : Nat) (op : String) (is_video : Bool) (s : St) : Prop :=
  c7_bookkept s (handle_generation env model prompt images true s) tid op is_video
    = full_success ((handle_generation env model prompt images true s).out.drop s.out.length)

/-- C7, counterexample: a run whose generation call returns an empty
result list yields only an in-band "Generation result is empty" error
response — no full success — yet the dispatch generator finishes
without raising, so the orchestrator still records usage, resets the
consecutive counter and appends a success (200) log row. -/
theorem c7_counterexample :
    ¬ c7_as_stated envC1 "gemini-2.5-flash-image-landscape" "p" [] 1 "generate_image" false stC8 := by
  unfold c7_as_stated
  decide

/-- C7 (amended): the success bookkeeping — usage recorded,
consecutive-error counter reset, success log row — runs if and only if
the guarded attempt block completes without a raised exception and
past the credential check, which includes runs whose dispatch
surfaced an in-band error response rather than a full success; the
early in-band credential-failure return performs no bookkeeping at
all, and a raised exception takes exactly the failure-classification
path (429 ban or error count, then error response and failure log). -/
theorem c7_theorem (env : Env) (model prompt : String) (images : List Nat)
    (cfg : MCfg) (tok : Token) (s : St)
    (hm : MODEL_CONFIG model = some cfg)
    (hsel : select_token s.db s.gate (cfg.mtype == "image") (cfg.mtype == "video") = some tok) :
    (∀ s2, generation_attempt env cfg prompt images true tok
        (emit (.selectToken (cfg.mtype == "image") (cfg.mtype == "video"))
          (say (.chunk ("✨ " ++ (if cfg.mtype == "video" then "Video" else "Image")
            ++ " generation task started\n")) s)) = (.ok true, s2) →
      handle_generation env model prompt images true s =
        { db := log_request (record_success (record_usage s2.db tok.id (cfg.mtype == "video")) tok.id) (some tok.id) ("generate_" ++ cfg.mtype) 200,
          gate := s2.gate, evs := s2.evs, out := s2.out })
    ∧ (∀ s2, generation_attempt env cfg prompt images true tok
        (emit (.selectToken (cfg.mtype == "image") (cfg.mtype == "video"))
          (say (.chunk ("✨ " ++ (if cfg.mtype == "video" then "Video" else "Image")
            ++ " generation task started\n")) s)) = (.ok false, s2) →
      handle_generation env model prompt images true s = s2)
    ∧ (∀ e s2, generation_attempt env cfg prompt images true tok
        (emit (.selectToken (cfg.mtype == "image") (cfg.mtype == "video"))
          (say (.chunk ("✨ " ++ (if cfg.mtype == "video" then "Video" else "Image")
            ++ " generation task started\n")) s)) = (.exc e, s2) →
      handle_generation env model prompt images true s =
        { db := log_request (if contains429 e then ban_token_for_429 env.now s2.db tok.id else record_error s2.db tok.id) (some tok.id) ("generate_" ++ cfg.mtype) 500,
          gate := s2.gate, evs := s2.evs,
          out := (s2.out ++ [Resp.chunk ("❌ " ++ ("Generation failed: " ++ e) ++ "\n")])
            ++ [Resp.err ("Generation failed: " ++ e)] }) := by
  refine ⟨?_, ?_, ?_⟩
  · intro s2 hatt
    unfold handle_generation
    rw [hm]
    dsimp only
    rw [if_neg (by decide)]
    simp only [say_db, say_gate, emit_db, emit_gate]
    rw [hsel]
    dsimp only
    rw [hatt]
  · intro s2 hatt
    unfold handle_generation
    rw [hm]
    dsimp only
    rw [if_neg (by decide)]
    simp only [say_db, say_gate, emit_db, emit_gate]
    rw [hsel]
    dsimp only
    rw [hatt]
  · intro e s2 hatt
    unfold handle_generation
    rw [hm]
    dsimp only
    rw [if_neg (by decide)]
    simp only [say_db, say_gate, emit_db, emit_gate]
    rw [hsel]
    dsimp only
    rw [hatt]
    dsimp only
    simp only [say_evs, say_out]

/-- Witness for `c7_theorem`: the concrete in-band-error run of the
counterexample, seen from the amended side — the attempt block
finished, so the success (200) log row is appended even though no
full-success payload was yielded. -/
theorem c7_theorem_witness :
    (handle_generation envC1 "gemini-2.5-flash-image-landscape" "p" [] true stC8).db.logs
      = stC8.db.logs ++ [{ token_id := some 1, operation := "generate_image", status_code := 200 }]
    ∧ full_success ((handle_generation envC1 "gemini-2.5-flash-image-landscape" "p" [] true stC8).out.drop stC8.out.length) = false := by
  have h := (c7_theorem envC1 "gemini-2.5-flash-image-landscape" "p" [] cfgImgL tokC1 stC8 rfl rfl).1
    ((generation_attempt envC1 cfgImgL "p" [] true tokC1 sC2).2) rfl
  rw [h]
  exact ⟨rfl, rfl⟩

/-! ### C10: pool-wide serialization of credential refreshes -/

/-- Program counter of one concurrent validity-check task with respect
to the refresh path of `_refresh_at`: outside, waiting on the lock to
refresh account `tid`, inside the critical section performing the
st→at exchange for account `tid`, or finished. -/
inductive RPc
  | idle
  | waiting (tid : Nat)
  | critical (tid : Nat)
  | done
  deriving Repr, DecidableEq

/-- `TokenManager.__init__` creates one `asyncio.Lock` for the whole
manager, and `_refresh_at` runs its entire exchange under `async with
self._lock`; this is the interleaving state of that single pool-wide
lock and two concurrent validity-check tasks. -/
structure RefreshSys where
  locked : Bool
  pc1 : RPc
  pc2 : RPc
  deriving Repr, DecidableEq

/-- The interleaving steps: a task decides to refresh some account
(any account — the lock is shared regardless), acquires the lock only
when it is free, and releases it when its exchange is finished. -/
inductive RStep : RefreshSys → RefreshSys → Prop
  | start1 (l : Bool) (p2 : RPc) (t : Nat) :
      RStep ⟨l, .idle, p2⟩ ⟨l, .waiting t, p2⟩
  | start2 (l : Bool) (p1 : RPc) (t : Nat) :
      RStep ⟨l, p1, .idle⟩ ⟨l, p1, .waiting t⟩
  | acquire1 (p2 : RPc) (t : Nat) :
      RStep ⟨false, .waiting t, p2⟩ ⟨true, .critical t, p2⟩
  | acquire2 (p1 : RPc) (t : Nat) :
      RStep ⟨false, p1, .waiting t⟩ ⟨true, p1, .critical t⟩
  | release1 (p2 : RPc) (t : Nat) :
      RStep ⟨true, .critical t, p2⟩ ⟨false, .done, p2⟩
  | release2 (p1 : RPc) (t : Nat) :
      RStep ⟨true, p1, .critical t⟩ ⟨false, p1, .done⟩

/-- States reachable from both tasks outside with the lock free. -/
inductive RReach : RefreshSys → Prop
  | init : RReach ⟨false, .idle, .idle⟩
  | step {a b : RefreshSys} : RReach a → RStep a b → RReach b

/-- The inductive lock invariant: a task inside the critical section
holds the lock and excludes the other task. -/
def locks_ok (s : RefreshSys) : Prop :=
  (∀ t, s.pc1 = RPc.critical t → s.locked = true ∧ ∀ u, s.pc2 ≠ RPc.critical u)
  ∧ (∀ t, s.pc2 = RPc.critical t → s.locked = true ∧ ∀ u, s.pc1 ≠ RPc.critical u)

theorem locks_ok_step {a b : RefreshSys} (h : locks_ok a) (hs : RStep a b) :
    locks_ok b := by
  cases hs with
  | start1 l p2 t =>
    refine ⟨fun t' ht' => by simp at ht', fun t' ht' => ?_⟩
    exact ⟨(h.2 t' ht').1, fun u => by simp⟩
  | start2 l p1 t =>
    refine ⟨fun t' ht' => ?_, fun t' ht' => by simp at ht'⟩
    exact ⟨(h.1 t' ht').1, fun u => by simp⟩
  | acquire1 p2 t =>
    refine ⟨fun t' ht' => ⟨rfl, fun u hu => ?_⟩, fun t' ht' => ?_⟩
    · exact absurd ((h.2 u hu).1) (by simp)
    · exact absurd ((h.2 t' ht').1) (by simp)
  | acquire2 p1 t =>
    refine ⟨fun t' ht' => ?_, fun t' ht' => ⟨rfl, fun u hu => ?_⟩⟩
    · exact absurd ((h.1 t' ht').1) (by simp)
    · exact absurd ((h.1 u hu).1) (by simp)
  | release1 p2 t =>
    refine ⟨fun t' ht' => by simp at ht', fun t' ht' => ?_⟩
    exact absurd ht' ((h.1 t rfl).2 t')
  | release2 p1 t =>
    refine ⟨fun t' ht' => ?_, fun t' ht' => by simp at ht'⟩
    exact absurd ht' ((h.2 t rfl).2 t')

theorem locks_ok_reach {s : RefreshSys} (h : RReach s) : locks_ok s := by
  induction h with
  | init =>
    exact ⟨fun t ht => by simp at ht, fun t ht => by simp at ht⟩
  | step ha hs ih =>
    exact locks_ok_step ih hs

/-- C10 (confirmed): in every reachable interleaving of two concurrent
validity checks, the two tasks are never simultaneously inside the
pool-wide critical section — for the same account or for different
accounts — so their session-to-access-credential exchange calls never
overlap. -/
theorem c10_theorem (s : RefreshSys) (h : RReach s) (t1 t2 : Nat) :
    ¬ (s.pc1 = RPc.critical t1 ∧ s.pc2 = RPc.critical t2) := by
  intro hc
  exact ((locks_ok_reach h).1 t1 hc.1).2 t2 hc.2

/-- Witness for `c10_theorem`: the reachable state in which task 1
holds the lock refreshing account 5 while task 2 is still outside. -/
theorem c10_theorem_witness :
    ¬ ((⟨true, RPc.critical 5, RPc.idle⟩ : RefreshSys).pc1 = RPc.critical 5
      ∧ (⟨true, RPc.critical 5, RPc.idle⟩ : RefreshSys).pc2 = RPc.critical 7) :=
  c10_theorem ⟨true, RPc.critical 5, RPc.idle⟩
    (RReach.step (RReach.step RReach.init (RStep.start1 false RPc.idle 5))
      (RStep.acquire1 RPc.idle 5)) 5 7

end Flow2API
